import Mathlib

/-!
Verification of the request-signing and sequential workflow core of the
playwright-api-framework-voltMoney repository.

The development shallowly embeds the TypeScript sources:
  * src/utils/dspAuth.ts        (getCurrentTimestamp, generateSignature,
                                 generateDspAuthHeaders)
  * src/utils/validators.ts     (ResponseValidator.validateStatus,
                                 validateField, getNestedField)
  * src/helpers/base/baseHelper.ts   (BaseHelper.buildHeaders)
  * src/helpers/los/loanAccountCreationHelper.ts (request signing per call)
  * src/tests/los/loanAccountCreationJourneyE2E.spec.ts
                                 (the 22 sequential steps of the loan
                                 account creation journey)

JavaScript runtime values that the code manipulates are modelled by the
inductive type Json below; a possibly-undefined JavaScript value is an
Option Json (none plays the role of undefined, Json.null the role of null).
JSON numbers occurring in this code base are integers, so Json.num carries
an Int.  HMAC-SHA256 and base64 are implemented concretely on byte lists
(naturals below 256), and strings are converted to bytes by a concrete
UTF-8 encoder, mirroring crypto.createHmac("sha256", key).update(s, "utf8")
.digest("base64").
-/

/-- The JSON values exchanged by the framework. -/
inductive Json where
  | null
  | bool (b : Bool)
  | num (n : Int)
  | str (s : String)
  | arr (elems : List Json)
  | obj (fields : List (String × Json))

/-- Decimal digits of a natural number, most significant first (always
nonempty, mirroring the decimal rendering used by JavaScript template
literals and JSON.stringify for the integers in this code base). -/
def natDigits (n : Nat) : List Nat :=
  if n < 10 then [n] else natDigits (n / 10) ++ [n % 10]
termination_by n
decreasing_by exact Nat.div_lt_self (by omega) (by decide)

/-- A decimal digit rendered as a character. -/
def digitChar (d : Nat) : Char := Char.ofNat (48 + d)

/-- Decimal rendering of a natural number. -/
def natToString (n : Nat) : String := String.mk ((natDigits n).map digitChar)

/-- Decimal rendering of an integer (JavaScript number-to-string for the
integral values used here). -/
def intToString (n : Int) : String :=
  if n < 0 then "-" ++ natToString n.natAbs else natToString n.toNat

/-- String.prototype.padStart(width, "0"). -/
def padStartZeros (width : Nat) (s : String) : String :=
  if width ≤ s.length then s
  else String.mk (List.replicate (width - s.length) '0' ++ s.data)

/-- Hexadecimal digit character (lower case), for JSON \u escapes. -/
def hexDigitChar (d : Nat) : Char :=
  if d < 10 then Char.ofNat (48 + d) else Char.ofNat (87 + d)

/-- JSON.stringify escaping of a single character inside a string literal. -/
def escapeJsonChar (c : Char) : String :=
  if c = '"' then "\\\""
  else if c = '\\' then "\\\\"
  else if c = '\n' then "\\n"
  else if c = '\r' then "\\r"
  else if c = '\t' then "\\t"
  else if c = '\x08' then "\\b"
  else if c = '\x0c' then "\\f"
  else if c.toNat < 32 then
    "\\u00" ++ String.mk [hexDigitChar (c.toNat / 16), hexDigitChar (c.toNat % 16)]
  else String.singleton c

/-- JSON.stringify rendering of a string literal, quotes included. -/
def quoteJson (s : String) : String :=
  "\"" ++ String.join (s.data.map escapeJsonChar) ++ "\""

/-- JSON.stringify on the values of this code base.  Object fields are kept
in insertion order, as the V8 runtime does for the non-numeric keys used
here; properties holding undefined never occur in the modelled objects
(JSON.stringify would omit them). -/
def jsonStringify : Json → String
  | .null => "null"
  | .bool true => "true"
  | .bool false => "false"
  | .num n => intToString n
  | .str s => quoteJson s
  | .arr elems =>
      "[" ++ String.intercalate "," (elems.attach.map (fun x => jsonStringify x.1)) ++ "]"
  | .obj fields =>
      "\x7b" ++
        String.intercalate ","
          (fields.attach.map (fun kv => quoteJson kv.1.1 ++ ":" ++ jsonStringify kv.1.2)) ++
        "\x7d"
decreasing_by
  · simp only [Json.arr.sizeOf_spec]
    exact Nat.lt_add_left 1 (List.sizeOf_lt_of_mem x.2)
  · simp only [Json.obj.sizeOf_spec]
    have h1 : sizeOf kv.1 < 1 + sizeOf fields := Nat.lt_add_left 1 (List.sizeOf_lt_of_mem kv.2)
    have h2 : sizeOf kv.1.2 < sizeOf kv.1 := by
      obtain ⟨⟨a, b⟩, hm⟩ := kv
      simp only [Prod.mk.sizeOf_spec]
      omega
    omega

/-- UTF-8 encoding of a single character, as a list of bytes. -/
def utf8Char (c : Char) : List Nat :=
  let n := c.toNat
  if n < 128 then [n]
  else if n < 2048 then [192 + n / 64, 128 + n % 64]
  else if n < 65536 then [224 + n / 4096, 128 + n / 64 % 64, 128 + n % 64]
  else [240 + n / 262144, 128 + n / 4096 % 64, 128 + n / 64 % 64, 128 + n % 64]

/-- UTF-8 encoding of a string, as used by hmac.update(s, "utf8"). -/
def utf8Bytes (s : String) : List Nat := s.data.flatMap utf8Char

/-! ### SHA-256, HMAC-SHA256 and base64 over byte lists -/

/-- Truncation to a 32-bit word. -/
def w32 (n : Nat) : Nat := n % 4294967296

/-- 32-bit rotate right. -/
def rotr (k n : Nat) : Nat := w32 (n / 2 ^ k + n * 2 ^ (32 - k))

/-- 32-bit shift right. -/
def shr (k n : Nat) : Nat := n / 2 ^ k

/-- 32-bit bitwise complement. -/
def not32 (n : Nat) : Nat := n ^^^ 4294967295

def sha256K : List Nat :=
  [1116352408, 1899447441, 3049323471, 3921009573,
   961987163, 1508970993, 2453635748, 2870763221,
   3624381080, 310598401, 607225278, 1426881987,
   1925078388, 2162078206, 2614888103, 3248222580,
   3835390401, 4022224774, 264347078, 604807628,
   770255983, 1249150122, 1555081692, 1996064986,
   2554220882, 2821834349, 2952996808, 3210313671,
   3336571891, 3584528711, 113926993, 338241895,
   666307205, 773529912, 1294757372, 1396182291,
   1695183700, 1986661051, 2177026350, 2456956037,
   2730485921, 2820302411, 3259730800, 3345764771,
   3516065817, 3600352804, 4094571909, 275423344,
   430227734, 506948616, 659060556, 883997877,
   958139571, 1322822218, 1537002063, 1747873779,
   1955562222, 2024104815, 2227730452, 2361852424,
   2428436474, 2756734187, 3204031479, 3329325298]

def sha256H0 : List Nat :=
  [1779033703, 3144134277, 1013904242, 2773480762,
   1359893119, 2600822924, 528734635, 1541459225]

/-- Big-endian 4-byte groups to 32-bit words. -/
def bytesToWords : List Nat → List Nat
  | b0 :: b1 :: b2 :: b3 :: rest =>
      (((b0 * 256 + b1) * 256 + b2) * 256 + b3) :: bytesToWords rest
  | _ => []

/-- A 32-bit word to 4 big-endian bytes. -/
def wordBytes (w : Nat) : List Nat :=
  [w / 16777216 % 256, w / 65536 % 256, w / 256 % 256, w % 256]

/-- Big-endian 8-byte rendering of the bit length. -/
def lengthBytes (w : Nat) : List Nat :=
  [w / 2 ^ 56 % 256, w / 2 ^ 48 % 256, w / 2 ^ 40 % 256, w / 2 ^ 32 % 256,
   w / 2 ^ 24 % 256, w / 2 ^ 16 % 256, w / 2 ^ 8 % 256, w % 256]

/-- SHA-256 message padding: append 0x80, zeros to 56 mod 64, then the
64-bit big-endian bit length. -/
def sha256Pad (msg : List Nat) : List Nat :=
  let zeros := (64 - (msg.length + 9) % 64) % 64
  msg ++ [128] ++ List.replicate zeros 0 ++ lengthBytes (msg.length * 8)

/-- 64-byte blocks of a byte list; the first argument is fuel, always
called with the length of the list so that it never runs out. -/
def chunkBlocks : Nat → List Nat → List (List Nat)
  | 0, _ => []
  | _ + 1, [] => []
  | fuel + 1, b :: rest => ((b :: rest).take 64) :: chunkBlocks fuel ((b :: rest).drop 64)

/-- 64-byte blocks of the padded message. -/
def chunk64 (l : List Nat) : List (List Nat) := chunkBlocks l.length l

/-- Message-schedule extension: given the 16 block words (reversed, most
recent first), produce words 16..63. -/
def sha256Extend : Nat → List Nat → List Nat
  | 0, acc => acc.reverse
  | n + 1, acc =>
      let g := fun k => (acc.get? k).getD 0
      let s0 := rotr 7 (g 14) ^^^ rotr 18 (g 14) ^^^ shr 3 (g 14)
      let s1 := rotr 17 (g 1) ^^^ rotr 19 (g 1) ^^^ shr 10 (g 1)
      sha256Extend n (w32 (g 15 + s0 + g 6 + s1) :: acc)

/-- One round of the SHA-256 compression function. -/
def sha256Round (st : List Nat) (kw : Nat × Nat) : List Nat :=
  match st with
  | [a, b, c, d, e, f, g, h] =>
      let s1 := rotr 6 e ^^^ rotr 11 e ^^^ rotr 25 e
      let ch := (e &&& f) ^^^ (not32 e &&& g)
      let t1 := w32 (h + s1 + ch + kw.1 + kw.2)
      let s0 := rotr 2 a ^^^ rotr 13 a ^^^ rotr 22 a
      let mj := (a &&& b) ^^^ (a &&& c) ^^^ (b &&& c)
      let t2 := w32 (s0 + mj)
      [w32 (t1 + t2), a, b, c, w32 (d + t1), e, f, g]
  | other => other

/-- Compression of one 64-byte block into the running hash. -/
def sha256Block (h : List Nat) (block : List Nat) : List Nat :=
  let ws := sha256Extend 48 (bytesToWords block).reverse
  let st := (sha256K.zip ws).foldl sha256Round h
  (h.zip st).map (fun p => w32 (p.1 + p.2))

/-- SHA-256 digest (32 bytes) of a byte list. -/
def sha256 (msg : List Nat) : List Nat :=
  (((chunk64 (sha256Pad msg)).foldl sha256Block sha256H0).map wordBytes).flatten

/-- HMAC-SHA256 (RFC 2104) digest of a message under a key, both byte
lists, as computed by crypto.createHmac("sha256", key). -/
def hmacSha256 (key msg : List Nat) : List Nat :=
  let k0 := if 64 < key.length then sha256 key else key
  let k1 := k0 ++ List.replicate (64 - k0.length) 0
  let ipad := k1.map (fun b => b ^^^ 0x36)
  let opad := k1.map (fun b => b ^^^ 0x5c)
  sha256 (opad ++ sha256 (ipad ++ msg))

def base64Alphabet : List Char :=
  "ABCDEFGHIJKLMNOPQRSTUVWXYZabcdefghijklmnopqrstuvwxyz0123456789+/".data

def base64CharOf (n : Nat) : Char := (base64Alphabet.get? n).getD '?'

/-- Standard base64 encoding of a byte list, with padding, as produced by
Buffer-based digest("base64"). -/
def base64Chars : List Nat → List Char
  | [] => []
  | [b0] =>
      [base64CharOf (b0 / 4), base64CharOf (b0 % 4 * 16), '=', '=']
  | [b0, b1] =>
      [base64CharOf (b0 / 4), base64CharOf (b0 % 4 * 16 + b1 / 16),
       base64CharOf (b1 % 16 * 4), '=']
  | b0 :: b1 :: b2 :: rest =>
      base64CharOf (b0 / 4) :: base64CharOf (b0 % 4 * 16 + b1 / 16) ::
        base64CharOf (b1 % 16 * 4 + b2 / 64) :: base64CharOf (b2 % 64) ::
        base64Chars rest

def base64Encode (bytes : List Nat) : String := String.mk (base64Chars bytes)

/-! ### src/utils/dspAuth.ts -/

/-- The six UTC clock components read from a JavaScript Date by
getCurrentTimestamp (utcMonth is 0-based, as returned by getUTCMonth). -/
structure UtcNow where
  utcFullYear : Nat
  utcMonth : Nat
  utcDate : Nat
  utcHours : Nat
  utcMinutes : Nat
  utcSeconds : Nat

/-- dspAuth.ts getCurrentTimestamp: the template literal
year, month+1, date, hours, minutes, seconds, the last five padded with
padStart(2, "0"), as a function of the clock reading. -/
def getCurrentTimestamp (now : UtcNow) : String :=
  natToString now.utcFullYear ++
  padStartZeros 2 (natToString (now.utcMonth + 1)) ++
  padStartZeros 2 (natToString now.utcDate) ++
  padStartZeros 2 (natToString now.utcHours) ++
  padStartZeros 2 (natToString now.utcMinutes) ++
  padStartZeros 2 (natToString now.utcSeconds)

/-- dspAuth.ts generateSignature.  The body argument is Option Json: none
is an absent/undefined requestBody.  bodyString is empty exactly when the
body is absent, and the source selects the canonical string by JavaScript
truthiness of bodyString. -/
def generateSignature (timestamp secretKey : String) (requestBody : Option Json) : String :=
  let bodyString : String :=
    match requestBody with
    | none => ""
    | some b => jsonStringify b
  let canonicalString := if bodyString.isEmpty then timestamp else bodyString ++ "." ++ timestamp
  base64Encode (hmacSha256 (utf8Bytes secretKey) (utf8Bytes canonicalString))

/-- The X-Timestamp and X-Signature headers returned by
generateDspAuthHeaders. -/
structure DspAuthHeaders where
  xTimestamp : String
  xSignature : String

/-- dspAuth.ts generateDspAuthHeaders: a fresh timestamp from the clock
and a signature over the optional body. -/
def generateDspAuthHeaders (now : UtcNow) (secretKey : String) (requestBody : Option Json) :
    DspAuthHeaders :=
  let timestamp := getCurrentTimestamp now
  { xTimestamp := timestamp
    xSignature := generateSignature timestamp secretKey requestBody }

/-- The canonical string as the specification words it: the timestamp
alone when no body is supplied, otherwise the serialized body, a dot and
the timestamp. -/
def canonicalStringSpec (timestamp : String) (requestBody : Option Json) : String :=
  match requestBody with
  | none => timestamp
  | some b => jsonStringify b ++ "." ++ timestamp

/-! ### Decimal-digit lemmas for the timestamp format -/

/-- Numeric value of a most-significant-first digit list. -/
def ofDigits (l : List Nat) : Nat := l.foldl (fun acc d => acc * 10 + d) 0

/-- A clock reading produced by a real UTC wall clock of the current era:
every component in its calendar range and a four-digit year. -/
def ValidUtc (now : UtcNow) : Prop :=
  1000 ≤ now.utcFullYear ∧ now.utcFullYear ≤ 9999 ∧ now.utcMonth ≤ 11 ∧
  1 ≤ now.utcDate ∧ now.utcDate ≤ 31 ∧ now.utcHours ≤ 23 ∧
  now.utcMinutes ≤ 59 ∧ now.utcSeconds ≤ 59

/-- The instant of a clock reading collapsed to one number, ordered the way
instants are (year, then month, day, hour, minute, second). -/
def clockVal (now : UtcNow) : Nat :=
  ((((now.utcFullYear * 100 + (now.utcMonth + 1)) * 100 + now.utcDate) * 100 +
    now.utcHours) * 100 + now.utcMinutes) * 100 + now.utcSeconds

/-! ### src/types/api.types.ts and src/utils/validators.ts -/

/-- api.types.ts ApiResponse: status, headers, parsed body, ok flag. -/
structure ApiResponse where
  status : Nat
  headers : List (String × String)
  body : Json
  ok : Bool

/-- JavaScript strict equality (===, also Object.is as used by toBe) on
the values compared by this framework.  Primitives compare by value;
arrays and objects compare by reference, and the two operands of every
comparison in this code base come from distinct allocations (a freshly
parsed response against a caller-supplied expectation), hence false. -/
def jsStrictEq : Json → Json → Bool
  | .null, .null => true
  | .bool a, .bool b => a == b
  | .num a, .num b => a == b
  | .str a, .str b => a == b
  | _, _ => false

/-- Strict equality on possibly-undefined values (undefined === undefined
holds). -/
def jsStrictEqOpt : Option Json → Option Json → Bool
  | none, none => true
  | some a, some b => jsStrictEq a b
  | _, _ => false

/-- JavaScript truthiness of a possibly-undefined value. -/
def jsTruthy : Option Json → Bool
  | none => false
  | some .null => false
  | some (.bool b) => b
  | some (.num n) => n != 0
  | some (.str s) => !s.isEmpty
  | some (.arr _) => true
  | some (.obj _) => true

/-- One step of validators.ts getNestedField: the optional-chained
property access current?.[key].  Nullish receivers yield undefined; on
other non-objects the framework only ever reads data properties that do
not exist (prototype members are never named by a field path), so the
access yields undefined. -/
def getNestedFieldStep (cur : Option Json) (key : String) : Option Json :=
  match cur with
  | none => none
  | some .null => none
  | some (.obj fields) => fields.lookup key
  | some _ => none

/-- String.prototype.split with a single-character separator: splitting
the empty string yields one empty part, and consecutive separators yield
empty parts, as in JavaScript. -/
def jsSplit (sep : Char) : List Char → List String
  | [] => [""]
  | c :: cs =>
      let rest := jsSplit sep cs
      if c = sep then "" :: rest
      else
        match rest with
        | [] => [String.mk [c]]
        | r :: rs => String.mk (c :: r.data) :: rs

/-- validators.ts ResponseValidator.getNestedField: split the path on
dots and reduce with optional chaining from the object. -/
def getNestedField (obj : Json) (path : String) : Option Json :=
  (jsSplit '.' path.data).foldl getNestedFieldStep (some obj)

/-- Whether a value is the JSON null (used by the template-literal
rendering of arrays, where null elements print as empty). -/
def isNullJson : Json → Bool
  | .null => true
  | _ => false

/-- Rendering of a value inside a JavaScript template literal, used by
the validator error messages (String(v) coercion). -/
def jsToDisplay : Json → String
  | .null => "null"
  | .bool true => "true"
  | .bool false => "false"
  | .num n => intToString n
  | .str s => s
  | .arr elems =>
      String.intercalate ","
        (elems.attach.map (fun x =>
          if isNullJson x.1 then "" else jsToDisplay x.1))
  | .obj _ => "[object Object]"
decreasing_by
  simp only [Json.arr.sizeOf_spec]
  exact Nat.lt_add_left 1 (List.sizeOf_lt_of_mem x.2)

/-- validators.ts ResponseValidator.validateStatus: throw a message
naming the expected and actual status when they differ. -/
def validateStatus (response : ApiResponse) (expectedStatus : Nat) : Except String Unit :=
  if response.status ≠ expectedStatus then
    .error ("Expected status " ++ natToString expectedStatus ++ ", but got " ++
      natToString response.status ++ ". Body: " ++ jsonStringify response.body)
  else .ok ()

/-- validators.ts ResponseValidator.validateField: resolve the dotted
path in the body; throw not-found when it resolves to undefined, and a
mismatch error when an expected value is supplied and is not strictly
equal to the resolved value. -/
def validateField (response : ApiResponse) (fieldPath : String) (expectedValue : Option Json) :
    Except String Unit :=
  let value := getNestedField response.body fieldPath
  match value with
  | none => .error ("Field '" ++ fieldPath ++ "' not found in response")
  | some v =>
      match expectedValue with
      | none => .ok ()
      | some e =>
          if jsStrictEq v e then .ok ()
          else .error ("Expected field '" ++ fieldPath ++ "' to be '" ++ jsToDisplay e ++
            "', but got '" ++ jsToDisplay v ++ "'")

/-! ### src/helpers/base/baseHelper.ts buildHeaders -/

/-- Assignment of one key in a JavaScript record: updates the first
(only) entry holding the key in place, otherwise appends the new key at
the end, exactly the insertion-order semantics of a plain object whose
keys are unique. -/
def recSet {β : Type} : List (String × β) → String → β → List (String × β)
  | [], k, v => [(k, v)]
  | kv :: rest, k, v => if kv.1 = k then (k, v) :: rest else kv :: recSet rest k v

/-- Object spread: the effect of writing every entry of the second record
over the first, as in a two-spread object literal. -/
def recSpread {β : Type} (base extra : List (String × β)) : List (String × β) :=
  extra.foldl (fun acc kv => recSet acc kv.1 kv.2) base

/-- baseHelper.ts BaseHelper.buildHeaders: default Content-Type and
Accept headers, an Authorization header added only for a truthy
(non-empty) stored authToken, then the caller-supplied additional headers
spread over them (the parameter is optional). -/
def buildHeaders (authToken : String) (additionalHeaders : Option (List (String × String))) :
    List (String × String) :=
  let headers : List (String × String) :=
    [("Content-Type", "application/json"), ("Accept", "application/json")]
  let headers :=
    if authToken.isEmpty then headers
    else recSet headers "Authorization" ("Bearer " ++ authToken)
  recSpread headers (additionalHeaders.getD [])

/-! ### Step 6 image handling (loanAccountCreationJourneyE2E.spec.ts) and
the signed photo-verification request (loanAccountCreationHelper.ts) -/

/-- The JavaScript whitespace class recognized by String.prototype.trim
(space, tab, line feed, carriage return, vertical tab, form feed,
no-break space, byte order mark). -/
def isJsSpace (c : Char) : Bool :=
  c == ' ' || c == '\t' || c == '\n' || c == '\r' ||
  c.toNat == 11 || c.toNat == 12 || c.toNat == 160 || c.toNat == 65279

/-- String.prototype.trim. -/
def jsTrim (s : String) : String :=
  String.mk (((s.data.dropWhile isJsSpace).reverse.dropWhile isJsSpace).reverse)

/-- Whether the second list starts with the first
(String.prototype.startsWith at the character level). -/
def listStartsWith : List Char → List Char → Bool
  | [], _ => true
  | _ :: _, [] => false
  | p :: ps, c :: cs => p == c && listStartsWith ps cs

/-- String.prototype.replace with a plain string pattern: replace the
first occurrence only. -/
def replaceFirst (pat rep : List Char) : List Char → List Char
  | [] => if pat.isEmpty then rep else []
  | c :: cs =>
      if listStartsWith pat (c :: cs) then rep ++ (c :: cs).drop pat.length
      else c :: replaceFirst pat rep cs

/-- Step 6 of the E2E test: trim the fixture image string, and strip a
leading data-URL wrapper — in the url(...) form the prefix and then the
first closing parenthesis are removed, in the bare data: form only the
prefix is removed. -/
def stripImageDataUrl (raw : String) : String :=
  let userImage := jsTrim raw
  if listStartsWith "url(data:image/png;base64,".data userImage.data then
    String.mk (replaceFirst ")".data []
      (replaceFirst "url(data:image/png;base64,".data [] userImage.data))
  else if listStartsWith "data:image/png;base64,".data userImage.data then
    String.mk (replaceFirst "data:image/png;base64,".data [] userImage.data)
  else userImage

/-- A signed outbound DSP request: the JSON payload handed to the HTTP
client together with the X-Timestamp and X-Signature headers. -/
structure SignedRequest where
  data : Option Json
  xTimestamp : String
  xSignature : String

/-- loanAccountCreationHelper.ts initPhotoVerification: DSP auth headers
are generated over photoData and the same photoData object is posted. -/
def initPhotoVerification (secretKey : String) (now : UtcNow) (photoData : Json) :
    SignedRequest :=
  let dspAuthHeaders := generateDspAuthHeaders now secretKey (some photoData)
  { data := some photoData
    xTimestamp := dspAuthHeaders.xTimestamp
    xSignature := dspAuthHeaders.xSignature }

/-! ### The loan-account-creation journey
(src/tests/los/loanAccountCreationJourneyE2E.spec.ts)

The 22 tests of the serial suite are modelled as a list of steps, each
with a request builder, a validation and a state update taken from the
test bodies.  The fixture file src/testdata/los/loanAccountCreation.json
is not part of the sources, so its request templates enter as opaque
parameters and its expected status codes are 200, the value named by
every step title and by the specification of this suite.  Assertions that
compare response fields against fixture-declared expectations are part of
the missing fixture and are not modelled; the status assertion, the
cross-step identifier assertions and the null assertions visible in the
test source are. -/

/-- A transport-level failure thrown by the HTTP layer. -/
structure JsError where
  message : String

/-- What the HTTP layer hands a step: a response, or a thrown error. -/
abbrev StepOutcome := Except JsError ApiResponse

/-- The request a step issues: the reference identifier substituted into
the endpoint path, if any, and the JSON payload posted, if any. -/
structure ReqSpec where
  pathParam : Option Json
  body : Option Json

/-- The module-level reference-identifier variables of the E2E spec file;
none models a still-undefined variable. -/
structure JourneyState where
  opportunityId : Option Json := none
  utilityReferenceId : Option Json := none
  photoVerificationReferenceId : Option Json := none
  additionalDataReferenceId : Option Json := none
  bankUtilityReferenceId : Option Json := none
  mandateReferenceId : Option Json := none
  verificationLogReferenceId : Option Json := none
  mobileVerificationLogReferenceId : Option Json := none
  agreementReferenceId : Option Json := none
  kfsReferenceId : Option Json := none
  newKfsReferenceId : Option Json := none
  newAgreementReferenceId : Option Json := none

/-- One step of a workflow over state σ: build the request from the
state, validate the response, and fold captured identifiers into the
state.  In the test source each status assertion precedes every capture,
so a step whose validation fails has not modified the state. -/
structure WStep (σ : Type) where
  name : String
  buildReq : σ → ReqSpec
  validate : σ → ApiResponse → Except String Unit
  update : σ → ApiResponse → σ

/-- Everything a finished (or aborted) run exposes: the final state, how
many steps started, the first error if any, and the requests issued in
order. -/
structure RunResult (σ : Type) where
  finalState : σ
  started : Nat
  error : Option String
  requests : List ReqSpec

/-- Modelled from the spec: the sequential executor of a serial suite
(test.describe.serial semantics, whose skip-after-failure behavior lives
in the Playwright runner, outside this repository): steps run one at a
time in declaration order, each consuming one HTTP outcome; a thrown
transport error or a failed validation aborts the run and no later step
starts. -/
def runSteps {σ : Type} : List (WStep σ) → List StepOutcome → σ → RunResult σ
  | [], _, s => ⟨s, 0, none, []⟩
  | _ :: _, [], s => ⟨s, 0, none, []⟩
  | st :: rest, out :: outs, s =>
      let req := st.buildReq s
      match out with
      | .error e => ⟨s, 1, some e.message, [req]⟩
      | .ok resp =>
          match st.validate s resp with
          | .error m => ⟨s, 1, some m, [req]⟩
          | .ok _ =>
              let r := runSteps rest outs (st.update s resp)
              ⟨r.finalState, r.started + 1, r.error, req :: r.requests⟩

/-- Direct property access body.key on a JavaScript value (undefined on
non-objects; the prototype members of primitives are never named here). -/
def jsField : Json → String → Option Json
  | .obj fields, key => fields.lookup key
  | _, _ => none

/-- A property of an object literal whose value may be undefined; at the
transmitted-JSON level an undefined property is simply absent. -/
def optField (k : String) (v : Option Json) : List (String × Json) :=
  match v with
  | some j => [(k, j)]
  | none => []

/-- Writing a possibly-undefined value over a record: a defined value
overwrites or appends, an undefined one leaves the transmitted JSON
without the key. -/
def recSetOpt (m : List (String × Json)) (k : String) (v : Option Json) :
    List (String × Json) :=
  match v with
  | some j => recSet m k j
  | none => m.filter (fun kv => kv.1 ≠ k)

/-- The expect chain shared by the steps: the status assertion first
(using the message format of validators.ts), then the remaining
assertions of the test body as boolean conditions. -/
def stepValidate (r : ApiResponse) (expectedStatus : Nat) (conds : List Bool) :
    Except String Unit :=
  match validateStatus r expectedStatus with
  | .error m => .error m
  | .ok _ => if conds.all id then .ok () else .error "expectation failed"

/-- The fixture values of loanAccountCreation.json used to build request
payloads, as opaque parameters (the fixture file is not in the sources). -/
structure JourneyTestData where
  pan : Json
  phone : Json
  generateOfferReq : List (String × Json)
  clientDedupeReq : List (String × Json)
  createOpportunityReq : List (String × Json)
  kycUtilityInitReq : List (String × Json)
  rawUserImage : String
  customerConsent : Json
  saveAdditionalReq : List (String × Json)
  bankUtilityInitReq : List (String × Json)
  createMandateReq : List (String × Json)
  verificationLogEmailReq : List (String × Json)
  verificationLogMobileReq : List (String × Json)
  kfsRequestTemplate : List (String × Json)
  redirectionUrl : Json
  approveKfsReq : List (String × Json)
  kfsConsentReq : List (String × Json)

/-- One element of the Step 16 submittedDataList. -/
def submittedEntry (t : String) (ref : Option Json) : Json :=
  Json.obj ([("dataType", Json.str t)] ++ optField "referenceId" ref)

def step1 (td : JourneyTestData) : WStep JourneyState :=
  { name := "Step 1: Generate Offer"
    buildReq := fun _ => ⟨none, some (Json.obj (recSpread [("pan", td.pan)] td.generateOfferReq))⟩
    validate := fun _ r => stepValidate r 200 [r.ok]
    update := fun s _ => s }

def step2 (td : JourneyTestData) : WStep JourneyState :=
  { name := "Step 2: Client Dedupe Check"
    buildReq := fun _ => ⟨none, some (Json.obj (recSpread [("pan", td.pan)] td.clientDedupeReq))⟩
    validate := fun _ r => stepValidate r 200 [r.ok]
    update := fun s _ => s }

def step3 (td : JourneyTestData) : WStep JourneyState :=
  { name := "Step 3: Create Opportunity"
    buildReq := fun _ =>
      ⟨none, some (Json.obj (recSpread [("pan", td.pan), ("phoneNumber", td.phone)]
        td.createOpportunityReq))⟩
    validate := fun _ r =>
      stepValidate r 200 [r.ok, (jsField r.body "opportunityId").isSome]
    update := fun s r => { s with opportunityId := jsField r.body "opportunityId" } }

def step4 (td : JourneyTestData) : WStep JourneyState :=
  { name := "Step 4: KYC Utility Init"
    buildReq := fun s =>
      ⟨none, some (Json.obj (recSpread (optField "opportunityId" s.opportunityId)
        td.kycUtilityInitReq))⟩
    validate := fun s r =>
      stepValidate r 200 [r.ok,
        jsStrictEqOpt (jsField r.body "opportunityId") s.opportunityId,
        (jsField r.body "utilityReferenceId").isSome]
    update := fun s r => { s with utilityReferenceId := jsField r.body "utilityReferenceId" } }

def step5 (td : JourneyTestData) : WStep JourneyState :=
  { name := "Step 5: Get KYC Utility"
    buildReq := fun s => ⟨s.utilityReferenceId, none⟩
    validate := fun s r =>
      stepValidate r 200 [r.ok,
        jsStrictEqOpt (jsField r.body "opportunityId") s.opportunityId,
        jsStrictEqOpt (jsField r.body "utilityReferenceId") s.utilityReferenceId]
    update := fun s _ => s }

def step6 (td : JourneyTestData) : WStep JourneyState :=
  { name := "Step 6: Init Photo Verification"
    buildReq := fun s =>
      ⟨none, some (Json.obj (optField "opportunityId" s.opportunityId ++
        [("userImage", Json.str (stripImageDataUrl td.rawUserImage)),
         ("customerConsent", td.customerConsent)]))⟩
    validate := fun s r =>
      stepValidate r 200 [r.ok,
        jsStrictEqOpt (jsField r.body "opportunityId") s.opportunityId,
        (jsField r.body "utilityReferenceId").isSome,
        jsStrictEqOpt (jsField r.body "fenixLoanAccountId") (some Json.null)]
    update := fun s r =>
      { s with photoVerificationReferenceId := jsField r.body "utilityReferenceId" } }

def step6_1 (td : JourneyTestData) : WStep JourneyState :=
  { name := "Step 6.1: Get Photo Verification"
    buildReq := fun s => ⟨s.photoVerificationReferenceId, none⟩
    validate := fun s r =>
      stepValidate r 200 [r.ok,
        jsStrictEqOpt (jsField r.body "opportunityId") s.opportunityId,
        jsStrictEqOpt (jsField r.body "utilityReferenceId") s.photoVerificationReferenceId,
        jsStrictEqOpt (jsField r.body "fenixLoanAccountId") (some Json.null)]
    update := fun s _ => s }

def step7 (td : JourneyTestData) : WStep JourneyState :=
  { name := "Step 7: Save Additional Data"
    buildReq := fun s =>
      ⟨none, some (Json.obj (recSpread (optField "opportunityId" s.opportunityId)
        td.saveAdditionalReq))⟩
    validate := fun s r =>
      stepValidate r 200 [r.ok,
        jsStrictEqOpt (jsField r.body "opportunityId") s.opportunityId]
    update := fun s r =>
      if jsTruthy (jsField r.body "utilityReferenceId") then
        { s with additionalDataReferenceId := jsField r.body "utilityReferenceId" }
      else s }

def step8 (td : JourneyTestData) : WStep JourneyState :=
  { name := "Step 8: Get Additional Data"
    buildReq := fun s => ⟨s.additionalDataReferenceId, none⟩
    validate := fun s r =>
      stepValidate r 200 [r.ok,
        jsStrictEqOpt (jsField r.body "opportunityId") s.opportunityId,
        jsStrictEqOpt (jsField r.body "utilityReferenceId") s.additionalDataReferenceId]
    update := fun s _ => s }

def step9 (td : JourneyTestData) : WStep JourneyState :=
  { name := "Step 9: Bank Utility Init"
    buildReq := fun s =>
      ⟨none, some (Json.obj (recSpread (optField "opportunityId" s.opportunityId)
        td.bankUtilityInitReq))⟩
    validate := fun s r =>
      stepValidate r 200 [r.ok,
        jsStrictEqOpt (jsField r.body "opportunityId") s.opportunityId,
        (jsField r.body "utilityReferenceId").isSome,
        jsStrictEqOpt (jsField r.body "fenixLoanAccountId") (some Json.null)]
    update := fun s r =>
      { s with bankUtilityReferenceId := jsField r.body "utilityReferenceId" } }

def step10 (td : JourneyTestData) : WStep JourneyState :=
  { name := "Step 10: Get Bank Utility"
    buildReq := fun s => ⟨s.bankUtilityReferenceId, none⟩
    validate := fun s r =>
      stepValidate r 200 [r.ok,
        jsStrictEqOpt (jsField r.body "opportunityId") s.opportunityId,
        jsStrictEqOpt (jsField r.body "utilityReferenceId") s.bankUtilityReferenceId,
        jsStrictEqOpt (jsField r.body "fenixLoanAccountId") (some Json.null)]
    update := fun s _ => s }

def step11 (td : JourneyTestData) : WStep JourneyState :=
  { name := "Step 11: Create Mandate"
    buildReq := fun s =>
      ⟨none, some (Json.obj (recSpread (optField "opportunityId" s.opportunityId ++
        optField "bankAccountVerificationId" s.bankUtilityReferenceId)
        td.createMandateReq))⟩
    validate := fun s r =>
      stepValidate r 200 [r.ok,
        jsStrictEqOpt (jsField r.body "opportunityId") s.opportunityId,
        (jsField r.body "utilityReferenceId").isSome,
        jsStrictEqOpt (jsField r.body "fenixLoanAccountId") (some Json.null)]
    update := fun s r =>
      { s with mandateReferenceId := jsField r.body "utilityReferenceId" } }

def step12 (td : JourneyTestData) : WStep JourneyState :=
  { name := "Step 12: Get Mandate"
    buildReq := fun s => ⟨s.mandateReferenceId, none⟩
    validate := fun s r =>
      stepValidate r 200 [r.ok,
        jsStrictEqOpt (jsField r.body "opportunityId") s.opportunityId,
        jsStrictEqOpt (jsField r.body "utilityReferenceId") s.mandateReferenceId,
        jsStrictEqOpt (jsField r.body "fenixLoanAccountId") (some Json.null)]
    update := fun s _ => s }

def step13 (td : JourneyTestData) : WStep JourneyState :=
  { name := "Step 13: Create Verification Log Email"
    buildReq := fun s =>
      ⟨none, some (Json.obj (recSpread (optField "opportunityId" s.opportunityId)
        td.verificationLogEmailReq))⟩
    validate := fun s r =>
      stepValidate r 200 [r.ok,
        jsStrictEqOpt (jsField r.body "opportunityId") s.opportunityId,
        (jsField r.body "utilityReferenceId").isSome,
        jsStrictEqOpt (jsField r.body "fenixLoanAccountId") (some Json.null)]
    update := fun s r =>
      { s with verificationLogReferenceId := jsField r.body "utilityReferenceId" } }

def step14 (td : JourneyTestData) : WStep JourneyState :=
  { name := "Step 14: Get Verification Log Email"
    buildReq := fun s => ⟨s.verificationLogReferenceId, none⟩
    validate := fun s r =>
      stepValidate r 200 [r.ok,
        jsStrictEqOpt (jsField r.body "opportunityId") s.opportunityId,
        jsStrictEqOpt (jsField r.body "utilityReferenceId") s.verificationLogReferenceId,
        jsStrictEqOpt (jsField r.body "fenixLoanAccountId") (some Json.null)]
    update := fun s _ => s }

def step14_1 (td : JourneyTestData) : WStep JourneyState :=
  { name := "Step 14.1: Create Verification Log Mobile"
    buildReq := fun s =>
      ⟨none, some (Json.obj (recSetOpt
        (recSpread (optField "opportunityId" s.opportunityId) td.verificationLogMobileReq)
        "verifiedValue" (some td.phone)))⟩
    validate := fun s r =>
      stepValidate r 200 [r.ok,
        jsStrictEqOpt (jsField r.body "opportunityId") s.opportunityId,
        (jsField r.body "utilityReferenceId").isSome,
        jsStrictEqOpt (jsField r.body "fenixLoanAccountId") (some Json.null)]
    update := fun s r =>
      { s with mobileVerificationLogReferenceId := jsField r.body "utilityReferenceId" } }

/-- Step 15 capture: scan the steps array for the AGREEMENT_SIGN and KFS
entries and conditionally record their reference ids. -/
def step15Update (s : JourneyState) (r : ApiResponse) : JourneyState :=
  match jsField r.body "steps" with
  | some (Json.arr entries) =>
      let agreementStep := entries.find? (fun u =>
        jsStrictEqOpt (jsField u "utilityType") (some (Json.str "AGREEMENT_SIGN")))
      let kfsStep := entries.find? (fun u =>
        jsStrictEqOpt (jsField u "utilityType") (some (Json.str "KFS")))
      let s1 :=
        match agreementStep with
        | some ag =>
            if jsTruthy (jsField ag "utilityReferenceId") then
              { s with agreementReferenceId := jsField ag "utilityReferenceId" }
            else s
        | none => s
      match kfsStep with
      | some kf =>
          if jsTruthy (jsField kf "utilityReferenceId") then
            { s1 with kfsReferenceId := jsField kf "utilityReferenceId" }
          else s1
      | none => s1
  | _ => s

def step15 (td : JourneyTestData) : WStep JourneyState :=
  { name := "Step 15: Generate Loan Contract"
    buildReq := fun s =>
      ⟨s.opportunityId, some (Json.obj
        [("kfsRequest", Json.obj (recSetOpt td.kfsRequestTemplate
            "emailVerificationLogId" s.verificationLogReferenceId)),
         ("agreementRequest", Json.obj
           (optField "kycReferenceId" s.utilityReferenceId ++
            optField "additionalUtilityReferenceId" s.additionalDataReferenceId ++
            optField "photoUtilityReferenceId" s.photoVerificationReferenceId ++
            optField "bankAccountReferenceId" s.bankUtilityReferenceId)),
         ("redirectionUrl", td.redirectionUrl)])⟩
    validate := fun s r =>
      stepValidate r 200 [r.ok,
        jsStrictEqOpt (jsField r.body "opportunityId") s.opportunityId]
    update := step15Update }

def step15_1 (td : JourneyTestData) : WStep JourneyState :=
  { name := "Step 15.1: Approve KFS"
    buildReq := fun s =>
      ⟨none, some (Json.obj (recSetOpt
        (recSpread (optField "opportunityId" s.opportunityId) td.approveKfsReq)
        "emailVerificationLogId" s.verificationLogReferenceId))⟩
    validate := fun _ r => stepValidate r 200 [r.ok]
    update := fun s r =>
      if jsTruthy (jsField r.body "utilityReferenceId") then
        { s with newKfsReferenceId := jsField r.body "utilityReferenceId" }
      else s }

def step15_2 (td : JourneyTestData) : WStep JourneyState :=
  { name := "Step 15.2: KFS Consent"
    buildReq := fun s => ⟨s.newKfsReferenceId, some (Json.obj td.kfsConsentReq)⟩
    validate := fun _ r => stepValidate r 200 [r.ok]
    update := fun s _ => s }

def step15_3 (td : JourneyTestData) : WStep JourneyState :=
  { name := "Step 15.3: Approve Agreement"
    buildReq := fun s =>
      ⟨none, some (Json.obj
        (optField "opportunityId" s.opportunityId ++
         optField "kycReferenceId" s.utilityReferenceId ++
         optField "additionalUtilityReferenceId" s.additionalDataReferenceId ++
         optField "bankAccountReferenceId" s.bankUtilityReferenceId ++
         optField "kfsReferenceId" s.newKfsReferenceId ++
         optField "photoUtilityReferenceId" s.photoVerificationReferenceId))⟩
    validate := fun _ r => stepValidate r 200 [r.ok]
    update := fun s r =>
      if jsTruthy (jsField r.body "utilityReferenceId") then
        { s with newAgreementReferenceId := jsField r.body "utilityReferenceId" }
      else s }

def step15_4 (td : JourneyTestData) : WStep JourneyState :=
  { name := "Step 15.4: Agreement Consent"
    buildReq := fun s => ⟨s.newAgreementReferenceId, some (Json.obj [])⟩
    validate := fun _ r => stepValidate r 200 [r.ok]
    update := fun s _ => s }

def step16 (td : JourneyTestData) : WStep JourneyState :=
  { name := "Step 16: Submit Opportunity"
    buildReq := fun s =>
      ⟨s.opportunityId, some (Json.obj [("submittedDataList", Json.arr
        [submittedEntry "BANK_ACCOUNT" s.bankUtilityReferenceId,
         submittedEntry "AGREEMENT" s.newAgreementReferenceId,
         submittedEntry "KFS" s.newKfsReferenceId,
         submittedEntry "MANDATE" s.mandateReferenceId,
         submittedEntry "ADDITIONAL_DATA" s.additionalDataReferenceId,
         submittedEntry "KYC" s.utilityReferenceId,
         submittedEntry "PHOTO_VERIFICATION" s.photoVerificationReferenceId,
         submittedEntry "MOBILE_VERIFICATION_LOG" s.mobileVerificationLogReferenceId,
         submittedEntry "EMAIL_VERIFICATION_LOG" s.verificationLogReferenceId])])⟩
    validate := fun _ r => stepValidate r 200 [r.ok]
    update := fun s _ => s }

/-- The 22 steps of the journey in declaration order. -/
def loanJourneySteps (td : JourneyTestData) : List (WStep JourneyState) :=
  [step1 td, step2 td, step3 td, step4 td, step5 td, step6 td, step6_1 td,
   step7 td, step8 td, step9 td, step10 td, step11 td, step12 td, step13 td,
   step14 td, step14_1 td, step15 td, step15_1 td, step15_2 td, step15_3 td,
   step15_4 td, step16 td]

def c4DemoStep : WStep Nat :=
  { name := "demo"
    buildReq := fun _ => ⟨none, none⟩
    validate := fun _ r => validateStatus r 200
    update := fun s _ => s }

/-! ### Transport errors (generateOffer try/catch and
BaseHelper.makeRequest catch) -/

/-- What a helper call exposes: the returned or re-thrown outcome, how
many HTTP calls it made, and the error-log invocations (logger.error
argument pairs) it produced. -/
structure HelperOutcome where
  result : Except JsError ApiResponse
  httpCalls : Nat
  errorLogs : List (String × String)

/-- loanAccountCreationHelper.ts generateOffer: sign the offer payload,
issue exactly one POST, and in the catch block log the failure and
re-throw the same error. -/
def generateOffer (secretKey : String) (now : UtcNow) (offerData : Json)
    (transport : SignedRequest → Except JsError ApiResponse) : HelperOutcome :=
  let dspAuthHeaders := generateDspAuthHeaders now secretKey (some offerData)
  let req : SignedRequest :=
    { data := some offerData
      xTimestamp := dspAuthHeaders.xTimestamp
      xSignature := dspAuthHeaders.xSignature }
  match transport req with
  | .ok resp => { result := .ok resp, httpCalls := 1, errorLogs := [] }
  | .error e =>
      { result := .error e
        httpCalls := 1
        errorLogs := [("Generate offer failed:", e.message)] }

/-- A 200 response whose JSON body has the given fields. -/
def okResp (fields : List (String × Json)) : StepOutcome :=
  .ok ⟨200, [], Json.obj fields, true⟩

/-- A run of the journey in which every step succeeds: each response
carries the identifiers the step under it captures — Step 15 returns the
old agreement and KFS reference ids inside its steps array, Step 15.1 and
Step 15.3 return the re-issued (new) KFS and agreement ids. -/
def c3Outs (oppId kyc photo addRef bank mand vlog mlog oldAgr oldKfs newKfs newAgr : String) :
    List StepOutcome :=
  [okResp [],
   okResp [],
   okResp [("opportunityId", .str oppId)],
   okResp [("opportunityId", .str oppId), ("utilityReferenceId", .str kyc)],
   okResp [("opportunityId", .str oppId), ("utilityReferenceId", .str kyc)],
   okResp [("opportunityId", .str oppId), ("utilityReferenceId", .str photo),
     ("fenixLoanAccountId", .null)],
   okResp [("opportunityId", .str oppId), ("utilityReferenceId", .str photo),
     ("fenixLoanAccountId", .null)],
   okResp [("opportunityId", .str oppId), ("utilityReferenceId", .str addRef)],
   okResp [("opportunityId", .str oppId), ("utilityReferenceId", .str addRef)],
   okResp [("opportunityId", .str oppId), ("utilityReferenceId", .str bank),
     ("fenixLoanAccountId", .null)],
   okResp [("opportunityId", .str oppId), ("utilityReferenceId", .str bank),
     ("fenixLoanAccountId", .null)],
   okResp [("opportunityId", .str oppId), ("utilityReferenceId", .str mand),
     ("fenixLoanAccountId", .null)],
   okResp [("opportunityId", .str oppId), ("utilityReferenceId", .str mand),
     ("fenixLoanAccountId", .null)],
   okResp [("opportunityId", .str oppId), ("utilityReferenceId", .str vlog),
     ("fenixLoanAccountId", .null)],
   okResp [("opportunityId", .str oppId), ("utilityReferenceId", .str vlog),
     ("fenixLoanAccountId", .null)],
   okResp [("opportunityId", .str oppId), ("utilityReferenceId", .str mlog),
     ("fenixLoanAccountId", .null)],
   okResp [("opportunityId", .str oppId), ("steps", .arr
     [Json.obj [("utilityType", .str "AGREEMENT_SIGN"), ("utilityReferenceId", .str oldAgr)],
      Json.obj [("utilityType", .str "KFS"), ("utilityReferenceId", .str oldKfs)]])],
   okResp [("utilityReferenceId", .str newKfs)],
   okResp [],
   okResp [("utilityReferenceId", .str newAgr)],
   okResp [],
   okResp []]

/-- The run of the whole journey over the outcomes above. -/
def c3Run (td : JourneyTestData)
    (oppId kyc photo addRef bank mand vlog mlog oldAgr oldKfs newKfs newAgr : String) :
    RunResult JourneyState :=
  runSteps (loanJourneySteps td)
    (c3Outs oppId kyc photo addRef bank mand vlog mlog oldAgr oldKfs newKfs newAgr) {}

/-- A minimal concrete fixture record for witnesses. -/
def demoTestData : JourneyTestData :=
  { pan := .str "ABCDE1234F"
    phone := .str "9999999999"
    generateOfferReq := []
    clientDedupeReq := []
    createOpportunityReq := []
    kycUtilityInitReq := []
    rawUserImage := "data:image/png;base64,QUJD"
    customerConsent := .bool true
    saveAdditionalReq := []
    bankUtilityInitReq := []
    createMandateReq := []
    verificationLogEmailReq := []
    verificationLogMobileReq := []
    kfsRequestTemplate := []
    redirectionUrl := .str "https://redirect.example"
    approveKfsReq := []
    kfsConsentReq := [] }

/-- A run in which Step 7 and Step 15.1 answer without the optional
utilityReferenceId (and Step 8 accordingly sees an undefined id). -/
def c7Outs (oppId kyc photo bank mand vlog mlog oldAgr oldKfs newAgr : String) :
    List StepOutcome :=
  [okResp [],
   okResp [],
   okResp [("opportunityId", .str oppId)],
   okResp [("opportunityId", .str oppId), ("utilityReferenceId", .str kyc)],
   okResp [("opportunityId", .str oppId), ("utilityReferenceId", .str kyc)],
   okResp [("opportunityId", .str oppId), ("utilityReferenceId", .str photo),
     ("fenixLoanAccountId", .null)],
   okResp [("opportunityId", .str oppId), ("utilityReferenceId", .str photo),
     ("fenixLoanAccountId", .null)],
   okResp [("opportunityId", .str oppId)],
   okResp [("opportunityId", .str oppId)],
   okResp [("opportunityId", .str oppId), ("utilityReferenceId", .str bank),
     ("fenixLoanAccountId", .null)],
   okResp [("opportunityId", .str oppId), ("utilityReferenceId", .str bank),
     ("fenixLoanAccountId", .null)],
   okResp [("opportunityId", .str oppId), ("utilityReferenceId", .str mand),
     ("fenixLoanAccountId", .null)],
   okResp [("opportunityId", .str oppId), ("utilityReferenceId", .str mand),
     ("fenixLoanAccountId", .null)],
   okResp [("opportunityId", .str oppId), ("utilityReferenceId", .str vlog),
     ("fenixLoanAccountId", .null)],
   okResp [("opportunityId", .str oppId), ("utilityReferenceId", .str vlog),
     ("fenixLoanAccountId", .null)],
   okResp [("opportunityId", .str oppId), ("utilityReferenceId", .str mlog),
     ("fenixLoanAccountId", .null)],
   okResp [("opportunityId", .str oppId), ("steps", .arr
     [Json.obj [("utilityType", .str "AGREEMENT_SIGN"), ("utilityReferenceId", .str oldAgr)],
      Json.obj [("utilityType", .str "KFS"), ("utilityReferenceId", .str oldKfs)]])],
   okResp [],
   okResp [],
   okResp [("utilityReferenceId", .str newAgr)],
   okResp [],
   okResp []]

/-- The run of the whole journey over the outcomes above. -/
def c7Run (td : JourneyTestData)
    (oppId kyc photo bank mand vlog mlog oldAgr oldKfs newAgr : String) :
    RunResult JourneyState :=
  runSteps (loanJourneySteps td)
    (c7Outs oppId kyc photo bank mand vlog mlog oldAgr oldKfs newAgr) {}

/-! ### Theorems -/

theorem natDigits_ne_nil (n : Nat) : natDigits n ≠ [] := by
  rw [natDigits]
  split <;> simp

theorem natToString_ne_empty (n : Nat) : natToString n ≠ "" := by
  have h := natDigits_ne_nil n
  simp only [natToString]
  intro hc
  have : (natDigits n).map digitChar = [] := congrArg String.data hc
  simp only [List.map_eq_nil_iff] at this
  exact h this

theorem jsonStringify_ne_empty (j : Json) : jsonStringify j ≠ "" := by
  cases j with
  | null => simp only [jsonStringify]; decide
  | bool b => cases b <;> (simp only [jsonStringify]; decide)
  | num n =>
      simp only [jsonStringify, intToString]
      split
      · intro hc
        have hl := congrArg String.length hc
        rw [String.length_append] at hl
        have h1 : "-".length = 1 := rfl
        have h2 : ("" : String).length = 0 := rfl
        omega
      · exact natToString_ne_empty _
  | str s =>
      simp only [jsonStringify, quoteJson]
      intro hc
      have hl := congrArg String.length hc
      rw [String.length_append, String.length_append] at hl
      have h1 : "\"".length = 1 := rfl
      have h2 : ("" : String).length = 0 := rfl
      omega
  | arr elems =>
      simp only [jsonStringify]
      intro hc
      have hl := congrArg String.length hc
      rw [String.length_append, String.length_append] at hl
      have h1 : "[".length = 1 := rfl
      have h2 : "]".length = 1 := rfl
      have h3 : ("" : String).length = 0 := rfl
      omega
  | obj fields =>
      simp only [jsonStringify]
      intro hc
      have hl := congrArg String.length hc
      rw [String.length_append, String.length_append] at hl
      have h1 : "\x7b".length = 1 := rfl
      have h2 : "\x7d".length = 1 := rfl
      have h3 : ("" : String).length = 0 := rfl
      omega

theorem jsonStringify_isEmpty_false (j : Json) : (jsonStringify j).isEmpty = false := by
  have h := jsonStringify_ne_empty j
  cases he : (jsonStringify j).isEmpty
  · rfl
  · exact absurd ((String.isEmpty_iff _).mp he) h

/-- Sanity check of the SHA-256 embedding against the FIPS 180 test
vector for "abc". -/
theorem sha256_vector_abc : sha256 (utf8Bytes "abc") =
    [0xba, 0x78, 0x16, 0xbf, 0x8f, 0x01, 0xcf, 0xea, 0x41, 0x41, 0x40, 0xde, 0x5d, 0xae,
     0x22, 0x23, 0xb0, 0x03, 0x61, 0xa3, 0x96, 0x17, 0x7a, 0x9c, 0xb4, 0x10, 0xff, 0x61,
     0xf2, 0x00, 0x15, 0xad] := by decide

set_option maxRecDepth 40000 in
/-- Sanity check of the HMAC-SHA256/base64 pipeline against an
independently computed signature of a timestamp under key "k". -/
theorem hmac_base64_vector :
    generateSignature "20260120150900" "k" none =
      "iwtwyns23YwMFEzdkvzL9EmXJ06qtaUDT2upm/XaGNU=" := by decide

theorem generateSignature_some (timestamp secretKey : String) (b : Json) :
    generateSignature timestamp secretKey (some b) =
      base64Encode (hmacSha256 (utf8Bytes secretKey)
        (utf8Bytes (jsonStringify b ++ "." ++ timestamp))) := by
  simp only [generateSignature, jsonStringify_isEmpty_false, Bool.false_eq_true, if_false]

/-- Claim C1: for every secretKey and timestamp, generateSignature signs
the canonical string determined solely by presence vs. absence of the body
argument — the timestamp alone when requestBody is absent, and
JSON.stringify(requestBody) ++ "." ++ timestamp for any supplied JSON value
(the empty object serializing to the two-character brace string) — and the
result is the base64-encoded HMAC-SHA256 of that canonical string keyed by
secretKey. -/
theorem spec_c1 (timestamp secretKey : String) (requestBody : Option Json) :
    generateSignature timestamp secretKey requestBody =
      base64Encode (hmacSha256 (utf8Bytes secretKey)
        (utf8Bytes (canonicalStringSpec timestamp requestBody))) ∧
    jsonStringify (Json.obj []) = "\x7b\x7d" := by
  refine ⟨?_, by unfold jsonStringify; rfl⟩
  cases requestBody with
  | none => rfl
  | some b => exact generateSignature_some timestamp secretKey b

theorem natDigits_digit_lt (n : Nat) : ∀ d ∈ natDigits n, d < 10 := by
  induction n using natDigits.induct with
  | case1 n h =>
      rw [natDigits, if_pos h]
      intro d hd
      simp only [List.mem_singleton] at hd
      omega
  | case2 n h ih =>
      rw [natDigits, if_neg h]
      intro d hd
      rcases List.mem_append.mp hd with h1 | h1
      · exact ih d h1
      · simp only [List.mem_singleton] at h1
        omega

theorem natDigits_small (n : Nat) (h : n < 10) : natDigits n = [n] := by
  rw [natDigits, if_pos h]

theorem natDigits_step (n : Nat) (h : 10 ≤ n) : natDigits n = natDigits (n / 10) ++ [n % 10] := by
  rw [natDigits, if_neg (by omega)]

theorem natDigits_mul_add (a b : Nat) (ha : 1 ≤ a) (hb : b < 10) :
    natDigits (a * 10 + b) = natDigits a ++ [b] := by
  have h10 : 10 ≤ a * 10 + b := by omega
  have hd : (a * 10 + b) / 10 = a := by omega
  have hm : (a * 10 + b) % 10 = b := by omega
  rw [natDigits_step _ h10, hd, hm]

theorem natDigits_chunk (a b : Nat) (ha : 1 ≤ a) (hb : b < 100) :
    natDigits (a * 100 + b) = natDigits a ++ [b / 10, b % 10] := by
  have he : a * 100 + b = (a * 10 + b / 10) * 10 + b % 10 := by omega
  rw [he, natDigits_mul_add _ _ (by omega) (by omega),
      natDigits_mul_add _ _ ha (by omega)]
  simp

theorem natDigits_length_four (n : Nat) (h1 : 1000 ≤ n) (h2 : n ≤ 9999) :
    (natDigits n).length = 4 := by
  have e1 : natDigits n = natDigits (n / 10) ++ [n % 10] := natDigits_step _ (by omega)
  have e2 : natDigits (n / 10) = natDigits (n / 10 / 10) ++ [n / 10 % 10] :=
    natDigits_step _ (by omega)
  have e3 : natDigits (n / 10 / 10) = natDigits (n / 10 / 10 / 10) ++ [n / 10 / 10 % 10] :=
    natDigits_step _ (by omega)
  have e4 : natDigits (n / 10 / 10 / 10) = [n / 10 / 10 / 10] :=
    natDigits_small _ (by omega)
  rw [e1, e2, e3, e4]
  simp

theorem ofDigits_foldl (l : List Nat) : ∀ acc : Nat,
    l.foldl (fun acc d => acc * 10 + d) acc = acc * 10 ^ l.length + ofDigits l := by
  induction l with
  | nil => intro acc; simp [ofDigits]
  | cons d l ih =>
      intro acc
      simp only [List.foldl_cons, List.length_cons, ofDigits]
      rw [ih (acc * 10 + d), ih (0 * 10 + d)]
      ring

theorem ofDigits_cons (d : Nat) (l : List Nat) :
    ofDigits (d :: l) = d * 10 ^ l.length + ofDigits l := by
  show List.foldl _ (0 * 10 + d) l = _
  rw [ofDigits_foldl]
  ring_nf

theorem ofDigits_append_single (l : List Nat) (d : Nat) :
    ofDigits (l ++ [d]) = ofDigits l * 10 + d := by
  simp [ofDigits, List.foldl_append]

theorem ofDigits_natDigits (n : Nat) : ofDigits (natDigits n) = n := by
  induction n using natDigits.induct with
  | case1 n h =>
      rw [natDigits_small _ h]
      simp [ofDigits]
  | case2 n h ih =>
      rw [natDigits_step _ (by omega), ofDigits_append_single, ih]
      omega

theorem ofDigits_lt (l : List Nat) (h : ∀ d ∈ l, d < 10) :
    ofDigits l < 10 ^ l.length := by
  induction l with
  | nil => simp [ofDigits]
  | cons d l ih =>
      rw [ofDigits_cons]
      have hd : d < 10 := h d (List.mem_cons_self d l)
      have hl := ih (fun x hx => h x (List.mem_cons_of_mem d hx))
      have : d * 10 ^ l.length + ofDigits l < (d + 1) * 10 ^ l.length := by nlinarith
      calc d * 10 ^ l.length + ofDigits l < (d + 1) * 10 ^ l.length := this
        _ ≤ 10 * 10 ^ l.length := by
            exact Nat.mul_le_mul_right _ (by omega)
        _ = 10 ^ (l.length + 1) := by ring

theorem digitChar_toNat (d : Nat) (h : d < 10) : (digitChar d).toNat = 48 + d := by
  interval_cases d <;> decide

theorem digitChar_isDigit (d : Nat) (h : d < 10) : (digitChar d).isDigit = true := by
  interval_cases d <;> decide

theorem digitChar_lt_iff (a b : Nat) (ha : a < 10) (hb : b < 10) :
    digitChar a < digitChar b ↔ a < b := by
  interval_cases a <;> interval_cases b <;> decide

theorem digitChar_inj (a b : Nat) (ha : a < 10) (hb : b < 10)
    (h : digitChar a = digitChar b) : a = b := by
  have := congrArg Char.toNat h
  rw [digitChar_toNat a ha, digitChar_toNat b hb] at this
  omega

theorem lex_cons_inv {x y : Char} {xs ys : List Char}
    (h : List.Lex (· < ·) (x :: xs) (y :: ys)) :
    x < y ∨ (x = y ∧ List.Lex (· < ·) xs ys) := by
  cases h with
  | cons h => exact Or.inr ⟨rfl, h⟩
  | rel h => exact Or.inl h

theorem lex_lt_ofDigits : ∀ l1 l2 : List Nat, l1.length = l2.length →
    (∀ d ∈ l1, d < 10) → (∀ d ∈ l2, d < 10) →
    List.Lex (· < ·) (l1.map digitChar) (l2.map digitChar) →
    ofDigits l1 < ofDigits l2 := by
  intro l1
  induction l1 with
  | nil =>
      intro l2 hlen _ _ hlex
      cases l2 with
      | nil => cases hlex
      | cons b bs => simp at hlen
  | cons a as ih =>
      intro l2 hlen h1 h2 hlex
      cases l2 with
      | nil => simp at hlen
      | cons b bs =>
          have hlen' : as.length = bs.length := by simpa using hlen
          have ha : a < 10 := h1 a (List.mem_cons_self a as)
          have hb : b < 10 := h2 b (List.mem_cons_self b bs)
          rw [ofDigits_cons, ofDigits_cons, hlen']
          simp only [List.map_cons] at hlex
          rcases lex_cons_inv hlex with hhead | ⟨hhead, htail⟩
          · have hab : a < b := (digitChar_lt_iff a b ha hb).mp hhead
            have hv1 : ofDigits as < 10 ^ as.length :=
              ofDigits_lt as (fun d hd => h1 d (List.mem_cons_of_mem a hd))
            rw [hlen'] at hv1
            have hstep : (a + 1) * 10 ^ bs.length ≤ b * 10 ^ bs.length :=
              Nat.mul_le_mul_right _ (by omega)
            have hexp : (a + 1) * 10 ^ bs.length = a * 10 ^ bs.length + 10 ^ bs.length := by
              ring
            calc a * 10 ^ bs.length + ofDigits as
                < (a + 1) * 10 ^ bs.length := by omega
              _ ≤ b * 10 ^ bs.length := hstep
              _ ≤ b * 10 ^ bs.length + ofDigits bs := Nat.le_add_right _ _
          · have hab : a = b := digitChar_inj a b ha hb hhead
            have hv := ih bs hlen'
              (fun d hd => h1 d (List.mem_cons_of_mem a hd))
              (fun d hd => h2 d (List.mem_cons_of_mem b hd)) htail
            subst hab
            omega

theorem pad2_data (b : Nat) (hb : b < 100) :
    (padStartZeros 2 (natToString b)).data = [digitChar (b / 10), digitChar (b % 10)] := by
  by_cases h : b < 10
  · have hd : natDigits b = [b] := natDigits_small b h
    have hlen : (natToString b).length = 1 := by
      simp [natToString, hd, String.length]
    rw [padStartZeros, if_neg (by omega), hlen]
    have hdiv : b / 10 = 0 := by omega
    have hz : digitChar 0 = '0' := by decide
    have hmod : b % 10 = b := by omega
    simp [natToString, hd, hdiv, hmod, hz]
  · have hd : natDigits b = [b / 10, b % 10] := by
      rw [natDigits_step b (by omega), natDigits_small (b / 10) (by omega)]
      rfl
    have hlen : (natToString b).length = 2 := by
      simp [natToString, hd, String.length]
    rw [padStartZeros, if_pos (by omega)]
    simp [natToString, hd]

theorem natDigits_clockVal (now : UtcNow) (h : ValidUtc now) :
    natDigits (clockVal now) =
      natDigits now.utcFullYear ++
        [(now.utcMonth + 1) / 10, (now.utcMonth + 1) % 10,
         now.utcDate / 10, now.utcDate % 10,
         now.utcHours / 10, now.utcHours % 10,
         now.utcMinutes / 10, now.utcMinutes % 10,
         now.utcSeconds / 10, now.utcSeconds % 10] := by
  obtain ⟨h1, h2, h3, h4, h5, h6, h7, h8⟩ := h
  rw [show clockVal now =
      (((((now.utcFullYear * 100 + (now.utcMonth + 1)) * 100 + now.utcDate) * 100 +
        now.utcHours) * 100 + now.utcMinutes)) * 100 + now.utcSeconds from rfl]
  rw [natDigits_chunk _ _ (by omega) (by omega)]
  rw [natDigits_chunk _ _ (by omega) (by omega)]
  rw [natDigits_chunk _ _ (by omega) (by omega)]
  rw [natDigits_chunk _ _ (by omega) (by omega)]
  rw [natDigits_chunk _ _ (by omega) (by omega)]
  simp

theorem getCurrentTimestamp_data (now : UtcNow) (h : ValidUtc now) :
    (getCurrentTimestamp now).data = (natDigits (clockVal now)).map digitChar := by
  have h3 : now.utcMonth + 1 < 100 := by rcases h with ⟨_, _, h3, _⟩; omega
  have h4 : now.utcDate < 100 := by rcases h with ⟨_, _, _, _, h5, _⟩; omega
  have h6 : now.utcHours < 100 := by rcases h with ⟨_, _, _, _, _, h6, _⟩; omega
  have h7 : now.utcMinutes < 100 := by rcases h with ⟨_, _, _, _, _, _, h7, _⟩; omega
  have h8 : now.utcSeconds < 100 := by rcases h with ⟨_, _, _, _, _, _, _, h8⟩; omega
  rw [natDigits_clockVal now h]
  simp only [getCurrentTimestamp, String.data_append]
  rw [pad2_data _ h3, pad2_data _ h4, pad2_data _ h6, pad2_data _ h7, pad2_data _ h8]
  simp [natToString]

theorem natDigits_clockVal_length (now : UtcNow) (h : ValidUtc now) :
    (natDigits (clockVal now)).length = 14 := by
  rw [natDigits_clockVal now h]
  rcases h with ⟨h1, h2, _⟩
  simp [natDigits_length_four _ h1 h2]

/-- Claim C6: for every valid clock instant, getCurrentTimestamp returns
the UTC wall-clock time as a 14-character zero-padded digit string
(yyyyMMddHHmmss, no separators), and under a non-decreasing clock its
outputs across calls are monotonically non-decreasing. -/
theorem spec_c6 (now now' : UtcNow) (h : ValidUtc now) (h' : ValidUtc now')
    (hle : clockVal now ≤ clockVal now') :
    (getCurrentTimestamp now).length = 14 ∧
    (∀ c ∈ (getCurrentTimestamp now).data, c.isDigit = true) ∧
    getCurrentTimestamp now ≤ getCurrentTimestamp now' := by
  refine ⟨?_, ?_, ?_⟩
  · show (getCurrentTimestamp now).data.length = 14
    rw [getCurrentTimestamp_data now h, List.length_map]
    exact natDigits_clockVal_length now h
  · intro c hc
    rw [getCurrentTimestamp_data now h] at hc
    obtain ⟨d, hd, rfl⟩ := List.mem_map.mp hc
    exact digitChar_isDigit d (natDigits_digit_lt _ d hd)
  · apply le_of_not_lt
    intro hlt
    rw [String.lt_iff_toList_lt] at hlt
    have hlex : List.Lex (· < ·) (getCurrentTimestamp now').toList
        (getCurrentTimestamp now).toList := hlt
    simp only [String.toList] at hlex
    rw [getCurrentTimestamp_data now h, getCurrentTimestamp_data now' h'] at hlex
    have hv := lex_lt_ofDigits _ _
      (by rw [natDigits_clockVal_length now' h', natDigits_clockVal_length now h])
      (natDigits_digit_lt _) (natDigits_digit_lt _) hlex
    rw [ofDigits_natDigits, ofDigits_natDigits] at hv
    omega

/-- Witness for C6 at two concrete clock readings five seconds apart. -/
theorem spec_c6_witness :
    ValidUtc ⟨2026, 9, 12, 8, 30, 0⟩ ∧ ValidUtc ⟨2026, 9, 12, 8, 30, 5⟩ ∧
    clockVal ⟨2026, 9, 12, 8, 30, 0⟩ ≤ clockVal ⟨2026, 9, 12, 8, 30, 5⟩ ∧
    ((getCurrentTimestamp ⟨2026, 9, 12, 8, 30, 0⟩).length = 14 ∧
     (∀ c ∈ (getCurrentTimestamp ⟨2026, 9, 12, 8, 30, 0⟩).data, c.isDigit = true) ∧
     getCurrentTimestamp ⟨2026, 9, 12, 8, 30, 0⟩ ≤ getCurrentTimestamp ⟨2026, 9, 12, 8, 30, 5⟩) :=
  ⟨by unfold ValidUtc; decide, by unfold ValidUtc; decide, by unfold clockVal; decide,
   spec_c6 _ _ (by unfold ValidUtc; decide) (by unfold ValidUtc; decide)
     (by unfold clockVal; decide)⟩

theorem foldl_getNestedFieldStep_none (keys : List String) :
    keys.foldl getNestedFieldStep none = none := by
  induction keys with
  | nil => rfl
  | cons k ks ih => simpa [getNestedFieldStep] using ih

/-- Claim C10: validateField without an expected value throws exactly
when the dotted path resolves to undefined; a field present with value
null passes the existence check; a missing or null intermediate yields
the not-found error (the resolution is total, never a crash); and with an
expected value it additionally throws exactly when the resolved value is
not strictly equal to it. -/
theorem spec_c10 (r : ApiResponse) (p : String) (exp : Option Json) :
    (validateField r p none = .ok () ↔ getNestedField r.body p ≠ none) ∧
    (getNestedField r.body p = none →
      validateField r p exp = .error ("Field '" ++ p ++ "' not found in response")) ∧
    (getNestedField r.body p = some Json.null → validateField r p none = .ok ()) ∧
    (∀ e, validateField r p (some e) = .ok () ↔
      ∃ v, getNestedField r.body p = some v ∧ jsStrictEq v e = true) ∧
    (∀ parts rest, rest ≠ [] →
      (parts.foldl getNestedFieldStep (some r.body) = none ∨
        parts.foldl getNestedFieldStep (some r.body) = some Json.null) →
      (parts ++ rest).foldl getNestedFieldStep (some r.body) = none) := by
  refine ⟨?_, ?_, ?_, ?_, ?_⟩
  · simp only [validateField]
    cases hv : getNestedField r.body p <;> simp [hv]
  · intro hv
    simp [validateField, hv]
  · intro hv
    simp [validateField, hv]
  · intro e
    simp only [validateField]
    cases hv : getNestedField r.body p with
    | none => simp
    | some v =>
        by_cases he : jsStrictEq v e = true <;> simp [he]
  · intro parts rest hrest hmid
    rw [List.foldl_append]
    rcases hmid with hmid | hmid <;> rw [hmid]
    · exact foldl_getNestedFieldStep_none rest
    · cases rest with
      | nil => exact absurd rfl hrest
      | cons k ks =>
          simp only [List.foldl_cons]
          show ks.foldl getNestedFieldStep (getNestedFieldStep (some Json.null) k) = none
          exact foldl_getNestedFieldStep_none ks

/-- Witness for C10: a body whose field a is null, probed at path a.b —
the null intermediate resolves to undefined and validateField reports the
not-found error. -/
theorem spec_c10_witness :
    getNestedField (Json.obj [("a", Json.null)]) "a.b" = none ∧
    validateField ⟨200, [], Json.obj [("a", Json.null)], true⟩ "a.b" none =
      .error ("Field '" ++ "a.b" ++ "' not found in response") :=
  ⟨rfl, (spec_c10 ⟨200, [], Json.obj [("a", Json.null)], true⟩ "a.b" none).2.1 rfl⟩

theorem lookup_recSet_self (m : List (String × String)) (k v : String) :
    (recSet m k v).lookup k = some v := by
  induction m with
  | nil => simp [recSet, List.lookup]
  | cons kv rest ih =>
      by_cases h : kv.1 = k
      · simp [recSet, h, List.lookup]
      · simp only [recSet, if_neg h]
        obtain ⟨k1, v1⟩ := kv
        simp only at h
        have hb : (k == k1) = false := beq_eq_false_iff_ne.mpr (Ne.symm h)
        simp [List.lookup, hb, ih]

theorem lookup_recSet_other (m : List (String × String)) (k k' v : String) (hne : k ≠ k') :
    (recSet m k' v).lookup k = m.lookup k := by
  have hb : (k == k') = false := beq_eq_false_iff_ne.mpr hne
  induction m with
  | nil => simp [recSet, List.lookup, hb]
  | cons kv rest ih =>
      by_cases h : kv.1 = k'
      · obtain ⟨k1, v1⟩ := kv
        simp only at h
        subst h
        simp [recSet, List.lookup, hb]
      · simp only [recSet, if_neg h]
        obtain ⟨k1, v1⟩ := kv
        by_cases hk : k = k1
        · subst hk
          simp [List.lookup]
        · have hb1 : (k == k1) = false := beq_eq_false_iff_ne.mpr hk
          simp [List.lookup, hb1, ih]

theorem lookup_recSpread_not_mem (extra : List (String × String)) :
    ∀ base k, k ∉ extra.map Prod.fst →
      (recSpread base extra).lookup k = base.lookup k := by
  induction extra with
  | nil => intro base k _; rfl
  | cons kv rest ih =>
      intro base k hk
      simp only [List.map_cons, List.mem_cons, not_or] at hk
      show (recSpread (recSet base kv.1 kv.2) rest).lookup k = _
      rw [ih _ k hk.2, lookup_recSet_other _ _ _ _ hk.1]

theorem lookup_recSpread_mem (extra : List (String × String)) :
    ∀ base k v, (extra.map Prod.fst).Nodup → (k, v) ∈ extra →
      (recSpread base extra).lookup k = some v := by
  induction extra with
  | nil => intro base k v _ hm; cases hm
  | cons kv rest ih =>
      intro base k v hnd hm
      simp only [List.map_cons, List.nodup_cons] at hnd
      rcases List.mem_cons.mp hm with heq | hmem
      · subst heq
        show (recSpread (recSet base k v) rest).lookup k = some v
        rw [lookup_recSpread_not_mem rest _ k hnd.1, lookup_recSet_self]
      · exact ih _ k v hnd.2 hmem

/-- Claim C9: buildHeaders returns Content-Type and Accept defaults of
application/json unless the caller supplies the same keys, in which case
the caller values win; the Authorization header of the form
Bearer plus the stored token is present exactly when the stored token is
a non-empty string, and the empty-token initial state produces no
Authorization header. -/
theorem spec_c9 (authToken : String) (additional : List (String × String)) :
    ("Content-Type" ∉ additional.map Prod.fst →
      (buildHeaders authToken (some additional)).lookup "Content-Type" =
        some "application/json") ∧
    ("Accept" ∉ additional.map Prod.fst →
      (buildHeaders authToken (some additional)).lookup "Accept" = some "application/json") ∧
    ((additional.map Prod.fst).Nodup → ∀ k v, (k, v) ∈ additional →
      (buildHeaders authToken (some additional)).lookup k = some v) ∧
    ("Authorization" ∉ additional.map Prod.fst →
      (buildHeaders authToken (some additional)).lookup "Authorization" =
        if authToken.isEmpty then none else some ("Bearer " ++ authToken)) ∧
    ((buildHeaders authToken none).lookup "Authorization" =
      if authToken.isEmpty then none else some ("Bearer " ++ authToken)) := by
  refine ⟨?_, ?_, ?_, ?_, ?_⟩
  · intro hk
    show (recSpread _ additional).lookup _ = _
    rw [lookup_recSpread_not_mem additional _ _ hk]
    by_cases ht : authToken.isEmpty <;>
      simp [ht, List.lookup, lookup_recSet_other, recSet]
  · intro hk
    show (recSpread _ additional).lookup _ = _
    rw [lookup_recSpread_not_mem additional _ _ hk]
    by_cases ht : authToken.isEmpty <;>
      simp [ht, List.lookup, lookup_recSet_other, recSet]
  · intro hnd k v hm
    exact lookup_recSpread_mem additional _ k v hnd hm
  · intro hk
    show (recSpread _ additional).lookup _ = _
    rw [lookup_recSpread_not_mem additional _ _ hk]
    by_cases ht : authToken.isEmpty <;>
      simp [ht, List.lookup, recSet]
  · show (recSpread _ []).lookup _ = _
    by_cases ht : authToken.isEmpty <;>
      simp [ht, List.lookup, recSpread, recSet]

/-- Witness for C9 at a concrete token and additional-header record. -/
theorem spec_c9_witness :
    ("Content-Type" ∉ ([("X-Client-Id", "ci")].map (Prod.fst (β := String)))) ∧
    (buildHeaders "tok123" (some [("X-Client-Id", "ci")])).lookup "Content-Type" =
      some "application/json" ∧
    ("Authorization" ∉ ([("X-Client-Id", "ci")].map (Prod.fst (β := String)))) ∧
    ((buildHeaders "tok123" (some [("X-Client-Id", "ci")])).lookup "Authorization" =
      if ("tok123" : String).isEmpty then none else some ("Bearer " ++ "tok123")) :=
  ⟨by decide,
   (spec_c9 "tok123" [("X-Client-Id", "ci")]).1 (by decide),
   by decide,
   (spec_c9 "tok123" [("X-Client-Id", "ci")]).2.2.2.1 (by decide)⟩

theorem listStartsWith_append (p rest : List Char) : listStartsWith p (p ++ rest) = true := by
  induction p with
  | nil => rfl
  | cons c cs ih => simp [listStartsWith, ih]

theorem replaceFirst_here (pat rep rest : List Char) (h : pat ≠ []) :
    replaceFirst pat rep (pat ++ rest) = rep ++ rest := by
  cases pat with
  | nil => exact absurd rfl h
  | cons pc pcs =>
      show replaceFirst (pc :: pcs) rep (pc :: (pcs ++ rest)) = rep ++ rest
      rw [replaceFirst]
      rw [show pc :: (pcs ++ rest) = (pc :: pcs) ++ rest from rfl]
      rw [listStartsWith_append, if_pos rfl, List.drop_left]

theorem replaceFirst_single_append (x : Char) (l : List Char) (h : x ∉ l) :
    replaceFirst [x] [] (l ++ [x]) = l := by
  induction l with
  | nil => exact replaceFirst_here [x] [] [] (by simp)
  | cons c cs ih =>
      have hxc : x ≠ c := fun he => h (he ▸ List.mem_cons_self c cs)
      show replaceFirst [x] [] (c :: (cs ++ [x])) = c :: cs
      rw [replaceFirst]
      have hsw : listStartsWith [x] (c :: (cs ++ [x])) = false := by
        simp [listStartsWith, beq_eq_false_iff_ne, hxc]
      rw [hsw, if_neg (by simp)]
      rw [ih (fun hm => h (List.mem_cons_of_mem c hm))]

/-- Claim C5: a fixture image beginning with the url(data:image/png;base64,
wrapper (or the bare data:image/png;base64, prefix) has the wrapper — and
in the url case the closing parenthesis — stripped from the trimmed
string before it is placed in the request body, and the photo-verification
request signs exactly the JSON body that is transmitted. -/
theorem spec_c5 (raw payload : String) (secretKey : String) (now : UtcNow) :
    (jsTrim raw = "url(data:image/png;base64," ++ payload ++ ")" → ')' ∉ payload.data →
      stripImageDataUrl raw = payload) ∧
    (jsTrim raw = "data:image/png;base64," ++ payload →
      stripImageDataUrl raw = payload) ∧
    (∀ photoData : Json,
      (initPhotoVerification secretKey now photoData).data = some photoData ∧
      (initPhotoVerification secretKey now photoData).xSignature =
        base64Encode (hmacSha256 (utf8Bytes secretKey)
          (utf8Bytes (jsonStringify photoData ++ "." ++
            (initPhotoVerification secretKey now photoData).xTimestamp)))) := by
  refine ⟨?_, ?_, ?_⟩
  · intro h1 h2
    have hd : (jsTrim raw).data =
        "url(data:image/png;base64,".data ++ (payload.data ++ [')']) := by
      rw [h1]
      simp [String.data_append]
    rw [stripImageDataUrl]
    rw [hd, listStartsWith_append, if_pos rfl]
    rw [replaceFirst_here _ _ _ (by simp)]
    rw [List.nil_append, replaceFirst_single_append ')' payload.data h2]
  · intro h1
    have hd : (jsTrim raw).data = "data:image/png;base64,".data ++ payload.data := by
      rw [h1]
      simp [String.data_append]
    rw [stripImageDataUrl]
    have hsw2 : listStartsWith "url(data:image/png;base64,".data (jsTrim raw).data = false := by
      rw [hd]
      cases hp : payload.data with
      | nil => decide
      | cons c cs => simp [listStartsWith]
    rw [hd] at hsw2 ⊢
    rw [hsw2, if_neg (by simp), listStartsWith_append, if_pos rfl]
    rw [replaceFirst_here _ _ _ (by simp), List.nil_append]
  · intro photoData
    exact ⟨rfl, generateSignature_some _ _ _⟩

/-- Witness for C5 at a concrete wrapped base64 payload. -/
theorem spec_c5_witness :
    jsTrim " url(data:image/png;base64,aGVsbG8=) " =
      "url(data:image/png;base64," ++ "aGVsbG8=" ++ ")" ∧
    ')' ∉ "aGVsbG8=".data ∧
    stripImageDataUrl " url(data:image/png;base64,aGVsbG8=) " = "aGVsbG8=" :=
  ⟨rfl, by decide,
   (spec_c5 " url(data:image/png;base64,aGVsbG8=) " "aGVsbG8=" "key"
     ⟨2026, 9, 12, 8, 30, 0⟩).1 rfl (by decide)⟩

theorem runSteps_append_ok {σ : Type} :
    ∀ (steps1 : List (WStep σ)) (outs1 : List StepOutcome) (steps2 : List (WStep σ))
      (outs2 : List StepOutcome) (s : σ),
      steps1.length = outs1.length →
      (runSteps steps1 outs1 s).error = none →
      runSteps (steps1 ++ steps2) (outs1 ++ outs2) s =
        ⟨(runSteps steps2 outs2 (runSteps steps1 outs1 s).finalState).finalState,
         steps1.length + (runSteps steps2 outs2 (runSteps steps1 outs1 s).finalState).started,
         (runSteps steps2 outs2 (runSteps steps1 outs1 s).finalState).error,
         (runSteps steps1 outs1 s).requests ++
           (runSteps steps2 outs2 (runSteps steps1 outs1 s).finalState).requests⟩ := by
  intro steps1
  induction steps1 with
  | nil =>
      intro outs1 steps2 outs2 s hlen herr
      have houts : outs1 = [] := List.length_eq_zero.mp hlen.symm
      subst houts
      simp [runSteps]
  | cons st rest ih =>
      intro outs1 steps2 outs2 s hlen herr
      cases outs1 with
      | nil => simp at hlen
      | cons out outs =>
          cases out with
          | error e => simp [runSteps] at herr
          | ok resp =>
              cases hv : st.validate s resp with
              | error m =>
                  rw [show runSteps (st :: rest) (Except.ok resp :: outs) s =
                    ⟨s, 1, some m, [st.buildReq s]⟩ by simp [runSteps, hv]] at herr
                  simp at herr
              | ok u =>
                  have hrw : runSteps (st :: rest) (Except.ok resp :: outs) s =
                      ⟨(runSteps rest outs (st.update s resp)).finalState,
                       (runSteps rest outs (st.update s resp)).started + 1,
                       (runSteps rest outs (st.update s resp)).error,
                       st.buildReq s :: (runSteps rest outs (st.update s resp)).requests⟩ := by
                    simp [runSteps, hv]
                  rw [hrw] at herr ⊢
                  simp only at herr
                  have hlen' : rest.length = outs.length := by simpa using hlen
                  have hstep : runSteps ((st :: rest) ++ steps2) ((Except.ok resp :: outs) ++ outs2) s =
                      ⟨(runSteps (rest ++ steps2) (outs ++ outs2) (st.update s resp)).finalState,
                       (runSteps (rest ++ steps2) (outs ++ outs2) (st.update s resp)).started + 1,
                       (runSteps (rest ++ steps2) (outs ++ outs2) (st.update s resp)).error,
                       st.buildReq s ::
                         (runSteps (rest ++ steps2) (outs ++ outs2) (st.update s resp)).requests⟩ := by
                    simp [runSteps, hv]
                  rw [hstep, ih outs steps2 outs2 (st.update s resp) hlen' herr]
                  simp
                  omega

/-- Claim C4: if a workflow step fails validation, the run aborts with
that step — exactly the passing prefix plus the failing step ever start,
the state is the one the prefix produced — and a status mismatch raises
the validators.ts message naming both the expected and the actual status
code. -/
theorem spec_c4 {σ : Type} (steps1 steps2 : List (WStep σ)) (st : WStep σ)
    (outs1 outs2 : List StepOutcome) (r : ApiResponse) (s : σ) (m : String)
    (hlen : steps1.length = outs1.length)
    (hok : (runSteps steps1 outs1 s).error = none)
    (hfail : st.validate (runSteps steps1 outs1 s).finalState r = .error m) :
    (runSteps (steps1 ++ st :: steps2) (outs1 ++ .ok r :: outs2) s).started =
      steps1.length + 1 ∧
    (runSteps (steps1 ++ st :: steps2) (outs1 ++ .ok r :: outs2) s).error = some m ∧
    (runSteps (steps1 ++ st :: steps2) (outs1 ++ .ok r :: outs2) s).finalState =
      (runSteps steps1 outs1 s).finalState ∧
    (∀ resp expected, resp.status ≠ expected →
      validateStatus resp expected = .error ("Expected status " ++ natToString expected ++
        ", but got " ++ natToString resp.status ++ ". Body: " ++ jsonStringify resp.body)) := by
  have hsplit := runSteps_append_ok steps1 outs1 (st :: steps2) (.ok r :: outs2) s hlen hok
  have htail : runSteps (st :: steps2) (.ok r :: outs2) (runSteps steps1 outs1 s).finalState =
      ⟨(runSteps steps1 outs1 s).finalState, 1, some m,
       [st.buildReq (runSteps steps1 outs1 s).finalState]⟩ := by
    simp [runSteps, hfail]
  rw [hsplit, htail]
  refine ⟨rfl, rfl, rfl, ?_⟩
  intro resp expected hne
  simp [validateStatus, hne]

/-- Witness for C4: a five-step workflow whose third step sees status 400
instead of 200 — steps four and five never start. -/
theorem spec_c4_witness :
    (runSteps ([c4DemoStep, c4DemoStep] ++ c4DemoStep :: [c4DemoStep, c4DemoStep])
      ([.ok ⟨200, [], Json.obj [], true⟩, .ok ⟨200, [], Json.obj [], true⟩] ++
        .ok ⟨400, [], Json.obj [], false⟩ ::
          [.ok ⟨200, [], Json.obj [], true⟩, .ok ⟨200, [], Json.obj [], true⟩])
      0).started = [c4DemoStep, c4DemoStep].length + 1 ∧
    (runSteps ([c4DemoStep, c4DemoStep] ++ c4DemoStep :: [c4DemoStep, c4DemoStep])
      ([.ok ⟨200, [], Json.obj [], true⟩, .ok ⟨200, [], Json.obj [], true⟩] ++
        .ok ⟨400, [], Json.obj [], false⟩ ::
          [.ok ⟨200, [], Json.obj [], true⟩, .ok ⟨200, [], Json.obj [], true⟩])
      0).error = some ("Expected status " ++ natToString 200 ++ ", but got " ++
        natToString 400 ++ ". Body: " ++ jsonStringify (Json.obj [])) ∧
    (runSteps ([c4DemoStep, c4DemoStep] ++ c4DemoStep :: [c4DemoStep, c4DemoStep])
      ([.ok ⟨200, [], Json.obj [], true⟩, .ok ⟨200, [], Json.obj [], true⟩] ++
        .ok ⟨400, [], Json.obj [], false⟩ ::
          [.ok ⟨200, [], Json.obj [], true⟩, .ok ⟨200, [], Json.obj [], true⟩])
      0).finalState =
      (runSteps [c4DemoStep, c4DemoStep]
        [.ok ⟨200, [], Json.obj [], true⟩, .ok ⟨200, [], Json.obj [], true⟩] 0).finalState ∧
    (∀ resp expected, resp.status ≠ expected →
      validateStatus resp expected = .error ("Expected status " ++ natToString expected ++
        ", but got " ++ natToString resp.status ++ ". Body: " ++ jsonStringify resp.body)) :=
  spec_c4 [c4DemoStep, c4DemoStep] [c4DemoStep, c4DemoStep] c4DemoStep
    [.ok ⟨200, [], Json.obj [], true⟩, .ok ⟨200, [], Json.obj [], true⟩]
    [.ok ⟨200, [], Json.obj [], true⟩, .ok ⟨200, [], Json.obj [], true⟩]
    ⟨400, [], Json.obj [], false⟩ 0
    ("Expected status " ++ natToString 200 ++ ", but got " ++ natToString 400 ++
      ". Body: " ++ jsonStringify (Json.obj [])) rfl rfl rfl

/-- Claim C8: when the HTTP layer throws, the helper logs the failure and
re-throws the same error unchanged, after exactly one request attempt;
inside a workflow, a step whose transport throws captures nothing — the
state is unchanged — and no later step starts. -/
theorem spec_c8 {σ : Type} (secretKey : String) (now : UtcNow) (offerData : Json)
    (e : JsError) (st : WStep σ) (rest : List (WStep σ)) (outs : List StepOutcome) (s : σ) :
    (generateOffer secretKey now offerData (fun _ => .error e)).result = .error e ∧
    (generateOffer secretKey now offerData (fun _ => .error e)).httpCalls = 1 ∧
    (generateOffer secretKey now offerData (fun _ => .error e)).errorLogs =
      [("Generate offer failed:", e.message)] ∧
    (runSteps (st :: rest) (.error e :: outs) s).finalState = s ∧
    (runSteps (st :: rest) (.error e :: outs) s).started = 1 ∧
    (runSteps (st :: rest) (.error e :: outs) s).error = some e.message :=
  ⟨rfl, rfl, rfl, rfl, rfl, rfl⟩

set_option maxHeartbeats 3000000 in
/-- Claim C3: when a reference id is re-issued mid-workflow, the later
steps send the most recently captured value — the KFS consent of Step
15.2 and the agreement consent of Step 15.4 are addressed to the new ids
captured in Steps 15.1 and 15.3, and the Step 16 payload lists the new
agreement and KFS ids — never the ids captured in Step 15, which remain
only in the superseded slots. -/
theorem spec_c3 (td : JourneyTestData)
    (oppId kyc photo addRef bank mand vlog mlog oldAgr oldKfs newKfs newAgr : String)
    (h1 : addRef.isEmpty = false) (h2 : oldAgr.isEmpty = false)
    (h3 : oldKfs.isEmpty = false) (h4 : newKfs.isEmpty = false)
    (h5 : newAgr.isEmpty = false) :
    (c3Run td oppId kyc photo addRef bank mand vlog mlog oldAgr oldKfs newKfs newAgr).error =
      none ∧
    (c3Run td oppId kyc photo addRef bank mand vlog mlog oldAgr oldKfs newKfs newAgr).started =
      22 ∧
    (c3Run td oppId kyc photo addRef bank mand vlog mlog oldAgr oldKfs
      newKfs newAgr).requests.get? 18 =
      some ⟨some (.str newKfs), some (Json.obj td.kfsConsentReq)⟩ ∧
    (c3Run td oppId kyc photo addRef bank mand vlog mlog oldAgr oldKfs
      newKfs newAgr).requests.get? 20 =
      some ⟨some (.str newAgr), some (Json.obj [])⟩ ∧
    (c3Run td oppId kyc photo addRef bank mand vlog mlog oldAgr oldKfs
      newKfs newAgr).requests.get? 21 =
      some ⟨some (.str oppId), some (Json.obj [("submittedDataList", Json.arr
        [Json.obj [("dataType", .str "BANK_ACCOUNT"), ("referenceId", .str bank)],
         Json.obj [("dataType", .str "AGREEMENT"), ("referenceId", .str newAgr)],
         Json.obj [("dataType", .str "KFS"), ("referenceId", .str newKfs)],
         Json.obj [("dataType", .str "MANDATE"), ("referenceId", .str mand)],
         Json.obj [("dataType", .str "ADDITIONAL_DATA"), ("referenceId", .str addRef)],
         Json.obj [("dataType", .str "KYC"), ("referenceId", .str kyc)],
         Json.obj [("dataType", .str "PHOTO_VERIFICATION"), ("referenceId", .str photo)],
         Json.obj [("dataType", .str "MOBILE_VERIFICATION_LOG"), ("referenceId", .str mlog)],
         Json.obj [("dataType", .str "EMAIL_VERIFICATION_LOG"),
           ("referenceId", .str vlog)]])])⟩ ∧
    (c3Run td oppId kyc photo addRef bank mand vlog mlog oldAgr oldKfs
      newKfs newAgr).finalState.kfsReferenceId = some (.str oldKfs) ∧
    (c3Run td oppId kyc photo addRef bank mand vlog mlog oldAgr oldKfs
      newKfs newAgr).finalState.agreementReferenceId = some (.str oldAgr) ∧
    (newKfs ≠ oldKfs →
      ((c3Run td oppId kyc photo addRef bank mand vlog mlog oldAgr oldKfs
        newKfs newAgr).requests.get? 18).map ReqSpec.pathParam ≠
          some (some (.str oldKfs))) ∧
    (newAgr ≠ oldAgr →
      ((c3Run td oppId kyc photo addRef bank mand vlog mlog oldAgr oldKfs
        newKfs newAgr).requests.get? 20).map ReqSpec.pathParam ≠
          some (some (.str oldAgr))) := by
  simp [c3Run, loanJourneySteps, c3Outs, okResp, runSteps, step1, step2, step3, step4,
    step5, step6, step6_1, step7, step8, step9, step10, step11, step12, step13, step14,
    step14_1, step15, step15_1, step15_2, step15_3, step15_4, step16,
    stepValidate, validateStatus, jsField, jsStrictEqOpt, jsStrictEq, jsTruthy,
    optField, List.lookup, step15Update, List.find?, submittedEntry,
    h1, h2, h3, h4, h5]

/-- Witness for C3 at concrete reference ids: Step 15.2 is addressed to
the new KFS id and Step 15.4 to the new agreement id. -/
theorem spec_c3_witness :
    ("AD-1" : String).isEmpty = false ∧
    ("AGR-OLD" : String).isEmpty = false ∧
    ("KFS-OLD" : String).isEmpty = false ∧
    ("KFS-NEW" : String).isEmpty = false ∧
    ("AGR-NEW" : String).isEmpty = false ∧
    (c3Run demoTestData "OPP-1" "KYC-1" "PH-1" "AD-1" "BK-1" "MD-1" "VL-1" "ML-1"
      "AGR-OLD" "KFS-OLD" "KFS-NEW" "AGR-NEW").requests.get? 18 =
      some ⟨some (.str "KFS-NEW"), some (Json.obj demoTestData.kfsConsentReq)⟩ ∧
    (c3Run demoTestData "OPP-1" "KYC-1" "PH-1" "AD-1" "BK-1" "MD-1" "VL-1" "ML-1"
      "AGR-OLD" "KFS-OLD" "KFS-NEW" "AGR-NEW").requests.get? 20 =
      some ⟨some (.str "AGR-NEW"), some (Json.obj [])⟩ :=
  ⟨rfl, rfl, rfl, rfl, rfl,
   (spec_c3 demoTestData "OPP-1" "KYC-1" "PH-1" "AD-1" "BK-1" "MD-1" "VL-1" "ML-1"
     "AGR-OLD" "KFS-OLD" "KFS-NEW" "AGR-NEW" rfl rfl rfl rfl rfl).2.2.1,
   (spec_c3 demoTestData "OPP-1" "KYC-1" "PH-1" "AD-1" "BK-1" "MD-1" "VL-1" "ML-1"
     "AGR-OLD" "KFS-OLD" "KFS-NEW" "AGR-NEW" rfl rfl rfl rfl rfl).2.2.2.1⟩

set_option maxHeartbeats 3000000 in
/-- Claim C7: when the optional utilityReferenceId is absent from the
Step 7 or Step 15.1 response, the workflow runs to completion without
throwing, the corresponding slot stays unset, and those steps capture
only when the field is present. -/
theorem spec_c7 (td : JourneyTestData)
    (oppId kyc photo bank mand vlog mlog oldAgr oldKfs newAgr : String)
    (h2 : oldAgr.isEmpty = false) (h3 : oldKfs.isEmpty = false)
    (h5 : newAgr.isEmpty = false) :
    (c7Run td oppId kyc photo bank mand vlog mlog oldAgr oldKfs newAgr).error = none ∧
    (c7Run td oppId kyc photo bank mand vlog mlog oldAgr oldKfs newAgr).started = 22 ∧
    (c7Run td oppId kyc photo bank mand vlog mlog oldAgr oldKfs
      newAgr).finalState.additionalDataReferenceId = none ∧
    (c7Run td oppId kyc photo bank mand vlog mlog oldAgr oldKfs
      newAgr).finalState.newKfsReferenceId = none ∧
    (∀ (s : JourneyState) (r : ApiResponse),
      jsField r.body "utilityReferenceId" = none → (step7 td).update s r = s) ∧
    (∀ (s : JourneyState) (r : ApiResponse),
      jsField r.body "utilityReferenceId" = none → (step15_1 td).update s r = s) := by
  refine ⟨?_, ?_, ?_, ?_, ?_, ?_⟩
  case _ | _ | _ | _ =>
    simp [c7Run, loanJourneySteps, c7Outs, okResp, runSteps, step1, step2, step3, step4,
      step5, step6, step6_1, step7, step8, step9, step10, step11, step12, step13, step14,
      step14_1, step15, step15_1, step15_2, step15_3, step15_4, step16,
      stepValidate, validateStatus, jsField, jsStrictEqOpt, jsStrictEq, jsTruthy,
      optField, List.lookup, step15Update, List.find?, submittedEntry, h2, h3, h5]
  case _ =>
    intro s r h
    simp [step7, h, jsTruthy]
  case _ =>
    intro s r h
    simp [step15_1, h, jsTruthy]

/-- Witness for C7 at concrete ids: both optional slots end the run
unset and the run finishes all 22 steps without an error. -/
theorem spec_c7_witness :
    ("AGR-OLD" : String).isEmpty = false ∧
    ("KFS-OLD" : String).isEmpty = false ∧
    ("AGR-NEW" : String).isEmpty = false ∧
    (c7Run demoTestData "OPP-1" "KYC-1" "PH-1" "BK-1" "MD-1" "VL-1" "ML-1"
      "AGR-OLD" "KFS-OLD" "AGR-NEW").error = none ∧
    (c7Run demoTestData "OPP-1" "KYC-1" "PH-1" "BK-1" "MD-1" "VL-1" "ML-1"
      "AGR-OLD" "KFS-OLD" "AGR-NEW").finalState.additionalDataReferenceId = none ∧
    (c7Run demoTestData "OPP-1" "KYC-1" "PH-1" "BK-1" "MD-1" "VL-1" "ML-1"
      "AGR-OLD" "KFS-OLD" "AGR-NEW").finalState.newKfsReferenceId = none :=
  ⟨rfl, rfl, rfl,
   (spec_c7 demoTestData "OPP-1" "KYC-1" "PH-1" "BK-1" "MD-1" "VL-1" "ML-1"
     "AGR-OLD" "KFS-OLD" "AGR-NEW" rfl rfl rfl).1,
   (spec_c7 demoTestData "OPP-1" "KYC-1" "PH-1" "BK-1" "MD-1" "VL-1" "ML-1"
     "AGR-OLD" "KFS-OLD" "AGR-NEW" rfl rfl rfl).2.2.1,
   (spec_c7 demoTestData "OPP-1" "KYC-1" "PH-1" "BK-1" "MD-1" "VL-1" "ML-1"
     "AGR-OLD" "KFS-OLD" "AGR-NEW" rfl rfl rfl).2.2.2.1⟩

/-- Body-presence sensitivity at the canonical-string level: for every
timestamp the two canonical strings of an absent body and an explicit
empty object differ (they differ in length by three). -/
theorem canonical_body_presence_ne (timestamp : String) :
    canonicalStringSpec timestamp none ≠
      canonicalStringSpec timestamp (some (Json.obj [])) := by
  intro h
  have hobj : jsonStringify (Json.obj []) = "\x7b\x7d" := by unfold jsonStringify; rfl
  simp only [canonicalStringSpec, hobj] at h
  have hl := congrArg String.length h
  rw [String.length_append, String.length_append] at hl
  have h1 : ("\x7b\x7d" : String).length = 2 := rfl
  have h2 : ("." : String).length = 1 := rfl
  omega

set_option maxRecDepth 80000 in
/-- Body-presence sensitivity observed on the signatures at a concrete
key and timestamp (the universally quantified version is a SHA-256
collision-freeness property and is left open). -/
theorem signature_body_presence_ne_concrete :
    generateSignature "20260120150900" "k" none ≠
      generateSignature "20260120150900" "k" (some (Json.obj [])) := by
  have hobj : jsonStringify (Json.obj []) = "\x7b\x7d" := by unfold jsonStringify; rfl
  rw [generateSignature_some, hobj]
  decide
